import Mathlib

/-!
Verification of the per-modality processing pipeline of the multimodal
backend (image / document / audio / video agents, HTTP upload endpoints,
storage writes).  The definitions below are a shallow embedding of the
Python sources under `src/mcp_backend/src/`:

* `PyVal` models the Python dictionaries that flow between pipeline
  stages (`ProcessingResult` and friends); key presence matters to the
  claims, so results are modelled as ordered association lists rather
  than fixed structures.
* Each agent method (`quick_analyze`, `process_<modality>`) is embedded
  as a function of an environment describing the outcomes of the
  external collaborators (file copy, hosted-model call, orchestration
  crew, ffmpeg), returning the result dictionary, the list of database
  writes, and the final file-system state.
* The HTTP layer (`main.py`) is embedded as `processUploadEndpoint`.

External libraries (OpenAI client, CrewAI, Pixeltable, ffmpeg) are
treated as oracles supplied by the environment, exactly at the call
boundaries where the Python code consumes their results.
-/

/-- Python-style dynamic values, as needed for the result dictionaries
built by the agents.  Floats of the source are modelled as rationals. -/
inductive PyVal where
  | none : PyVal
  | bool (b : Bool) : PyVal
  | int (n : Int) : PyVal
  | float (q : ℚ) : PyVal
  | str (s : String) : PyVal
  | list (xs : List PyVal) : PyVal
  | dict (kvs : List (String × PyVal)) : PyVal

/-- First-match lookup in an ordered key/value list (Python dict lookup;
the dicts built by this codebase never repeat a key). -/
def lookupKV : List (String × PyVal) → String → Option PyVal
  | [], _ => Option.none
  | (k', v) :: rest, k => if k' = k then some v else lookupKV rest k

/-- `d.get(k)` on a Python dict (None, i.e. `Option.none`, when absent
or when the value is not a dict). -/
def PyVal.get : PyVal → String → Option PyVal
  | .dict kvs, k => lookupKV kvs k
  | _, _ => Option.none

/-- `d.get(k, default)` for an int-valued entry, as used by the
storage-layer helpers (`result.get("tokens", 0)` etc.). -/
def PyVal.getIntD (v : PyVal) (k : String) (d : Int) : Int :=
  match v.get k with
  | some (.int n) => n
  | _ => d

/-- `d.get(k, False)` for a bool-valued entry
(`result.get("success", False)`). -/
def PyVal.getBoolD (v : PyVal) (k : String) (d : Bool) : Bool :=
  match v.get k with
  | some (.bool b) => b
  | _ => d

/-- `d.get(k)` for a string-valued entry, `Option.none` when absent. -/
def PyVal.getStrOpt (v : PyVal) (k : String) : Option String :=
  match v.get k with
  | some (.str s) => some s
  | _ => Option.none

/-- `d.get(k, default)` for a string-valued entry. -/
def PyVal.getStrD (v : PyVal) (k : String) (d : String) : String :=
  match v.get k with
  | some (.str s) => s
  | _ => d

/-- `d.get(k, {})` returning a dict value ({} when absent / not a dict),
as in `result.get("result", {})`. -/
def PyVal.getDictD (v : PyVal) (k : String) : PyVal :=
  match v.get k with
  | some (.dict kvs) => .dict kvs
  | _ => .dict []

/-- Whether a Python value is a dict (`isinstance(x, dict)`). -/
def PyVal.isDict : PyVal → Bool
  | .dict _ => true
  | _ => false

/-- Key membership (`k in d`). -/
def PyVal.hasKey (v : PyVal) (k : String) : Bool :=
  match v.get k with
  | some _ => true
  | Option.none => false

/-- Decimal digit character, `48 + d` is the ASCII code of the digit. -/
def decDigitChar (d : ℕ) : Char := Char.ofNat (48 + d)

/-- Little-endian base-10 digits, structurally recursive on a fuel
bound so that concrete values reduce inside the kernel. -/
def digitsFuel : ℕ → ℕ → List ℕ
  | 0, _ => []
  | fuel + 1, n => if n = 0 then [] else (n % 10) :: digitsFuel fuel (n / 10)

/-- Little-endian base-10 digits of a natural number. -/
def natDigits (n : ℕ) : List ℕ := digitsFuel n n

/-- The decimal rendering of a natural number as Python's `str`/f-string
interpolation produces it (`f"{timestamp}"`). -/
def natChars (n : ℕ) : List Char :=
  if n = 0 then ['0'] else ((natDigits n).map decDigitChar).reverse

/-- Python `str(n)` for a natural number. -/
def natStr (n : ℕ) : String := String.mk (natChars n)

-- ---------------------------------------------------------------------------
-- GET /health introspection lists and the upload endpoints' allow-lists
-- (src/main.py).
-- ---------------------------------------------------------------------------

/-- `supported_formats.images` reported by `GET /health` (main.py). -/
def healthSupportedImageFormats : List String :=
  [".jpg", ".jpeg", ".png", ".gif", ".webp"]

/-- `supported_formats.videos` reported by `GET /health` (main.py). -/
def healthSupportedVideoFormats : List String :=
  [".mp4", ".mov", ".avi", ".mkv"]

/-- `supported_formats.audio` reported by `GET /health` (main.py). -/
def healthSupportedAudioFormats : List String :=
  [".mp3", ".wav", ".ogg", ".m4a"]

/-- `supported_formats.documents` reported by `GET /health` (main.py). -/
def healthSupportedDocumentFormats : List String :=
  [".pdf", ".doc", ".docx", ".txt"]

/-- `allowed_image_extensions` enforced by `POST /process-image`. -/
def allowedImageExtensions : List String :=
  [".jpg", ".jpeg", ".png", ".gif", ".webp"]

/-- `allowed_doc_extensions` enforced by `POST /process-document`. -/
def allowedDocExtensions : List String :=
  [".pdf", ".docx", ".txt", ".doc"]

/-- `allowed_audio_extensions` enforced by `POST /process-audio`. -/
def allowedAudioExtensions : List String :=
  [".mp3", ".wav", ".ogg", ".m4a", ".flac"]

/-- `allowed_video_extensions` enforced by `POST /process-video`. -/
def allowedVideoExtensions : List String :=
  [".mp4", ".mov", ".avi", ".mkv", ".webm"]

-- ---------------------------------------------------------------------------
-- Path / string helpers shared by the agents and the HTTP layer.
-- ---------------------------------------------------------------------------

/-- `os.path.basename` (POSIX): the part after the last '/'. -/
def basenameChars (l : List Char) : List Char :=
  (l.reverse.takeWhile (fun c => c ≠ '/')).reverse

/-- `pathlib.Path(filename).suffix`: the extension of the final
component, including the dot; empty when there is no dot, when the name
starts with the dot (hidden file) or ends with it. -/
def pySuffixChars (filename : List Char) : List Char :=
  let name := basenameChars filename
  if '.' ∈ name then
    let afterRev := name.reverse.takeWhile (fun c => c ≠ '.')
    let i := name.length - 1 - afterRev.length
    if 0 < i ∧ i < name.length - 1 then '.' :: afterRev.reverse else []
  else []

/-- `Path(filename).suffix` on strings. -/
def pySuffix (s : String) : String := String.mk (pySuffixChars s.data)

/-- Python `str.lower()` on the ASCII extensions handled here. -/
def pyToLower (s : String) : String := String.mk (s.data.map Char.toLower)

/-- `os.path.basename` on strings. -/
def pyBasename (s : String) : String := String.mk (basenameChars s.data)

/-- `file_path.startswith(data_dir)` (Python `str.startswith`). -/
def pyStartswith (s pre : String) : Bool := pre.data.isPrefixOf s.data

/-- `os.path.join(dir, name)` for a directory without trailing slash. -/
def joinPath (dir name : String) : String := dir ++ "/" ++ name

/-- The unique destination filename built by every agent's
save-to-data-folder step:
`f"{user_id}_{timestamp}_{unique_id}_{name}{ext}"`, where
`name, ext = os.path.splitext(original_filename)`; since `splitext` is
lossless, `{name}{ext}` is the original basename again. -/
def makeFilenameChars (u : List Char) (ts : ℕ) (uid nm : List Char) : List Char :=
  u ++ '_' :: (natChars ts ++ '_' :: (uid ++ '_' :: nm))

/-- String version of the destination-filename generator. -/
def makeFilename (userId : String) (ts : ℕ) (uniqueId originalName : String) : String :=
  String.mk (makeFilenameChars userId.data ts uniqueId.data originalName.data)

-- ---------------------------------------------------------------------------
-- Python whitespace handling: `str.strip()` and `str.split()` with no
-- arguments, as used by the document text extraction (ASCII whitespace).
-- ---------------------------------------------------------------------------

/-- ASCII whitespace recognised by Python's `strip`/`split`. -/
def isPySpace (c : Char) : Bool :=
  c = ' ' || c = '\t' || c = '\n' || c = '\r' || c = '\x0b' || c = '\x0c'

/-- `text.strip()` on the character list. -/
def pyStripChars (l : List Char) : List Char :=
  ((l.dropWhile isPySpace).reverse.dropWhile isPySpace).reverse

/-- `text.strip()`. -/
def pyStrip (s : String) : String := String.mk (pyStripChars s.data)

/-- `text.split()` with no separator: maximal runs of non-whitespace,
leading/trailing/repeated whitespace ignored. -/
def pySplitChars (l : List Char) : List (List Char) :=
  match l with
  | [] => []
  | c :: rest =>
    if isPySpace c then pySplitChars rest
    else (c :: rest.takeWhile (fun d => !(isPySpace d))) ::
         pySplitChars (rest.dropWhile (fun d => !(isPySpace d)))
termination_by l.length
decreasing_by
  · simp
  · simp only [List.length_cons]
    have h := List.Sublist.length_le (List.dropWhile_sublist (l := rest) (fun d => !(isPySpace d)))
    omega

-- ---------------------------------------------------------------------------
-- Document text extraction (document_agent.py, `extract_document_text`).
-- ---------------------------------------------------------------------------

/-- The outcome of `extract_document_text` (document_agent.py).  The
source returns a dict; the claims only consult these fields, and the
error branches of the source leave text/word_count/char_count absent,
modelled here by the defaults `""`/`0`. -/
structure ExtractResult where
  success : Bool
  text : String
  word_count : ℕ
  char_count : ℕ
  error : Option String

/-- Contents of the document file, as seen through the three format
parsers.  `.txt` content is the decoded text (the source tries UTF-8
then latin-1, both modelled as the known decoded string); the PDF/DOCX
parsers are external libraries modelled as an oracle that either yields
the accumulated pre-strip text or raises. -/
structure DocFileEnv where
  txtContent : String
  pdfText : Except String String
  docxText : Except String String

/-- `extract_document_text` (document_agent.py lines 126-153): pick the
extractor by extension, fail on unsupported extensions and on empty
extracted text, report `word_count = len(text.split())` and
`char_count = len(text)` on success. -/
def extract_document_text (ext : String) (file : DocFileEnv) : ExtractResult :=
  if ext ∈ [".pdf", ".docx", ".txt"] then
    let extracted : Except String String :=
      if ext = ".pdf" then file.pdfText.map (fun t => pyStrip t)
      else if ext = ".docx" then file.docxText.map (fun t => pyStrip t)
      else .ok (pyStrip file.txtContent)
    match extracted with
    | .error e => ⟨false, "", 0, 0, some ("Text extraction failed: " ++ e)⟩
    | .ok text =>
      if text = "" then ⟨false, "", 0, 0, some "No text could be extracted."⟩
      else ⟨true, text, (pySplitChars text.data).length, text.data.length, Option.none⟩
  else ⟨false, "", 0, 0, some ("Unsupported file format: " ++ ext)⟩

-- ---------------------------------------------------------------------------
-- Pipeline effects: database writes and the durable file system.
-- ---------------------------------------------------------------------------

/-- A write performed through the storage layer (`src/ingestor/ingestor.py`):
either a modality MediaRecord insert or a TrackingRecord insert.  The
storage layer is external; inserts are modelled as effects that succeed. -/
inductive DBWrite where
  | media (agentType : String) (tokens : Int)
  | tracking (agentType : String) (tokens : Int) (success : Bool)
      (errorMessage : Option String)

/-- Discriminator: is this write a TrackingRecord insert? -/
def DBWrite.isTracking : DBWrite → Bool
  | .tracking _ _ _ _ => true
  | _ => false

/-- Discriminator: is this write a MediaRecord insert? -/
def DBWrite.isMedia : DBWrite → Bool
  | .media _ _ => true
  | _ => false

/-- Discriminator: a TrackingRecord insert carrying `success=True`. -/
def DBWrite.isSuccessTracking : DBWrite → Bool
  | .tracking _ _ s _ => s
  | _ => false

/-- The durable file system is the set of existing paths, as a list.
`os.remove` removes a path; `shutil.copy2` adds the destination. -/
def fsRemove (p : String) (fs : List String) : List String :=
  fs.filter (fun q => q ≠ p)

/-- `cleanup_temp_file` (identical in all four agents): delete the file
only when it is not inside the data folder; `os.path.exists` guards the
removal, and removing an absent path is the identity here, matching that
guard.  Failures of `os.remove` are caught in the source (best-effort);
the embedding models the successful removal. -/
def cleanup_temp_file (dataDir p : String) (fs : List String) : List String :=
  if pyStartswith p dataDir then fs else fsRemove p fs

/-- The path returned by `save_<modality>_to_data_folder`: the unique
destination inside the data folder when the copy succeeds, the original
path unchanged when `shutil.copy2` fails (the function catches every
exception and falls back). -/
def savedPathOf (dataDir sourcePath userId : String) (ts : ℕ) (uid : String)
    (copyOk : Bool) : String :=
  if copyOk then joinPath dataDir (makeFilename userId ts uid (pyBasename sourcePath))
  else sourcePath

/-- The file-system effect of `save_<modality>_to_data_folder`: a
successful `shutil.copy2` creates the destination file. -/
def fsAfterSave (dataDir sourcePath userId : String) (ts : ℕ) (uid : String)
    (copyOk : Bool) (fs : List String) : List String :=
  if copyOk then joinPath dataDir (makeFilename userId ts uid (pyBasename sourcePath)) :: fs
  else fs

/-- Outcome of a hosted-model analysis call
(`analyze_image_with_openai`, `analyze_document_with_openai`,
`analyze_audio_with_openai`, `analyze_frames_with_openai`): the source
returns a dict with `success`, `analysis`, `tokens_used` and, on
failure, `error`. -/
structure StageResult where
  success : Bool
  analysis : String
  tokens : Int
  error : String

/-- Outcome of `enhance_analysis_with_crew` (image/audio/video agents):
a dict with `success`, `enhanced_analysis`, `tokens_used` and, on
failure, `error`.  The function catches every exception internally. -/
structure CrewResult where
  success : Bool
  output : String
  tokens : Int
  error : String

/-- Outcome of `transcribe_audio_with_openai` (audio agent). -/
structure TranscribeResult where
  success : Bool
  transcript : String
  error : String

/-- What an agent method returns and effects: the ProcessingResult dict,
the storage writes in order, the final durable file system, and the path
produced by the save step. -/
structure PipelineOut where
  result : PyVal
  writes : List DBWrite
  fs : List String
  savedPath : String

-- ---------------------------------------------------------------------------
-- Image agent (image_agent.py).
-- ---------------------------------------------------------------------------

/-- Environment of one image-agent invocation: request inputs, the
initial file system, and the outcomes of the external calls. -/
structure ImageEnv where
  fs0 : List String
  dataDir : String
  sourcePath : String
  query : String
  userId : String
  ts : ℕ
  uid : String
  copyOk : Bool
  analyze : StageResult
  crew : CrewResult
  elapsed : ℚ
  pxAvailable : Bool

/-- `ImageAgent.store_to_pixeltable`: on `success` (the success dicts
always carry a `result` key) insert the image record and a tracking
record with `success=True`; otherwise insert only a tracking record with
`success=False`, `tokens_used=0` and
`error_message=result.get("error", "Unknown error occurred")`. -/
def ImageAgent.store (pxAvailable : Bool) (result : PyVal) (success : Bool) :
    List DBWrite :=
  if pxAvailable then
    if success && result.hasKey "result" then
      let tokens := result.getIntD "tokens" 0
      [.media "image" tokens, .tracking "image" tokens true Option.none]
    else
      [.tracking "image" 0 false (some (result.getStrD "error" "Unknown error occurred"))]
  else []

/-- `ImageAgent.quick_analyze`: save, analyze with the hosted model,
persist, clean up.  The outer `except` branch of the source is
unreachable here because every step catches its own exceptions. -/
def ImageAgent.quick_analyze (env : ImageEnv) : PipelineOut :=
  let saved := savedPathOf env.dataDir env.sourcePath env.userId env.ts env.uid env.copyOk
  let fs1 := fsAfterSave env.dataDir env.sourcePath env.userId env.ts env.uid env.copyOk env.fs0
  let out :=
    if env.analyze.success then
      let totalTokens := env.analyze.tokens
      let successResult : PyVal := .dict [
        ("success", .bool true),
        ("tokens", .int totalTokens),
        ("result", .dict [
          ("analysis", .str env.analyze.analysis),
          ("technical_details", .dict [
            ("model_used", .str "gpt-4o"),
            ("tokens_used", .int totalTokens),
            ("processing_time", .str "")]),
          ("image_info", .dict []),
          ("file_paths", .dict [
            ("original_path", .str env.sourcePath),
            ("data_folder_path", .str saved),
            ("saved_to_data_folder", .bool true)]),
          ("processing_mode", .str "quick_analysis")]),
        ("query", .str env.query),
        ("file_processed", .bool true),
        ("processing_method", .str "openai_vision_only"),
        ("processing_time", .float env.elapsed)]
      (successResult, ImageAgent.store env.pxAvailable successResult true)
    else
      let errorResult : PyVal := .dict [
        ("success", .bool false),
        ("tokens", .int 0),
        ("result", .dict [
          ("error", .str env.analyze.error),
          ("processing_time", .float env.elapsed)]),
        ("query", .str env.query),
        ("file_processed", .bool true),
        ("error", .str env.analyze.error)]
      (errorResult, ImageAgent.store env.pxAvailable errorResult false)
  let fs2 := if env.sourcePath ≠ saved then cleanup_temp_file env.dataDir env.sourcePath fs1 else fs1
  ⟨out.1, out.2, fs2, saved⟩

/-- `ImageAgent.process_image`: like `quick_analyze` with the CrewAI
enhancement stage between analysis and persistence; the enhancement
call catches its own exceptions, so its failure reaches this method only
as `crew_result.get("success")` being false. -/
def ImageAgent.process_image (env : ImageEnv) : PipelineOut :=
  let saved := savedPathOf env.dataDir env.sourcePath env.userId env.ts env.uid env.copyOk
  let fs1 := fsAfterSave env.dataDir env.sourcePath env.userId env.ts env.uid env.copyOk env.fs0
  let out :=
    if env.analyze.success then
      let openaiTokens := env.analyze.tokens
      let crewTokens := if env.crew.success then env.crew.tokens else 0
      let totalTokens := openaiTokens + crewTokens
      let successResult : PyVal := .dict [
      ("success", .bool true),
      ("tokens", .int totalTokens),
      ("result", .dict [
        ("primary_analysis", .str env.analyze.analysis),
        ("enhanced_response", .str (if env.crew.success then env.crew.output else "")),
        ("technical_details", .dict [
          ("model_used", .str "gpt-4o"),
          ("tokens_used", .int totalTokens),
          ("token_breakdown", .dict [
            ("openai_vision", .int openaiTokens),
            ("crew_enhancement", .int crewTokens)]),
          ("processing_time", .str ""),
          ("enhancement_agents", .list (if env.crew.success
            then [.str "analysis_expert", .str "response_formatter"] else []))]),
        ("image_info", .dict []),
        ("file_paths", .dict [
          ("original_path", .str env.sourcePath),
          ("data_folder_path", .str saved),
          ("saved_to_data_folder", .bool true)]),
        ("query_details", .dict [("original_query", .str env.query)]),
        ("status", .dict [
          ("openai_analysis", .str "completed"),
          ("crew_enhancement", .str (if env.crew.success then "completed" else "failed")),
          ("overall", .str "success")])]),
      ("query", .str env.query),
      ("file_processed", .bool true),
      ("processing_method", .str "openai_vision + crewai_enhancement"),
      ("processing_time", .float env.elapsed)]
      (successResult, ImageAgent.store env.pxAvailable successResult true)
    else
      let errorResult : PyVal := .dict [
        ("success", .bool false),
        ("tokens", .int 0),
        ("result", .dict [
          ("error", .str env.analyze.error),
          ("agent_used", .str "openai_vision"),
          ("processing_time", .float env.elapsed)]),
        ("query", .str env.query),
        ("file_processed", .bool true),
        ("error", .str env.analyze.error)]
      (errorResult, ImageAgent.store env.pxAvailable errorResult false)
  let fs2 := if env.sourcePath ≠ saved then cleanup_temp_file env.dataDir env.sourcePath fs1 else fs1
  ⟨out.1, out.2, fs2, saved⟩

-- ---------------------------------------------------------------------------
-- Document agent (document_agent.py).
-- ---------------------------------------------------------------------------

/-- Environment of one document-agent invocation.  `crewOk` is whether
the raw `crew.kickoff()` call in `process_document` returns (it is not
wrapped in its own handler there); `hasUsage` models
`hasattr(crew, "usage_metrics")`. -/
structure DocEnv where
  fs0 : List String
  dataDir : String
  sourcePath : String
  query : String
  userId : String
  ts : ℕ
  uid : String
  copyOk : Bool
  file : DocFileEnv
  openai : StageResult
  crewOk : Bool
  crewOutput : String
  crewError : String
  hasUsage : Bool
  crewTokens : Int
  elapsed : ℚ
  pxAvailable : Bool

/-- `DocumentAgent.store_to_pixeltable`: tokens are read from the top
level of the result dict (`result.get("tokens", 0)`); the document
record is inserted only on success, the tracking record always, with
`error_message = result.get("error")`. -/
def DocumentAgent.store (pxAvailable : Bool) (result : PyVal) (success : Bool) :
    List DBWrite :=
  if pxAvailable then
    let tokens := result.getIntD "tokens" 0
    (if success then [.media "document" tokens] else []) ++
      [.tracking "document" tokens success (result.getStrOpt "error")]
  else []

/-- The error ProcessingResult built by the document agent
(`{"success": False, "tokens": 0, "error": str(e), "query": ...,
"processing_time": ...}`). -/
def docErrorResult (query : String) (elapsed : ℚ) (msg : String) : PyVal :=
  .dict [
    ("success", .bool false),
    ("tokens", .int 0),
    ("error", .str msg),
    ("query", .str query),
    ("processing_time", .float elapsed)]

/-- `DocumentAgent.quick_analyze`: save, extract text (fatal on
failure), analyze with the hosted model (fatal on failure), persist,
clean up the original in the `finally` block. -/
def DocumentAgent.quick_analyze (env : DocEnv) : PipelineOut :=
  let saved := savedPathOf env.dataDir env.sourcePath env.userId env.ts env.uid env.copyOk
  let fs1 := fsAfterSave env.dataDir env.sourcePath env.userId env.ts env.uid env.copyOk env.fs0
  let ex := extract_document_text (pyToLower (pySuffix saved)) env.file
  let out :=
    if ex.success then
      if env.openai.success then
        let totalTokens := env.openai.tokens
        let successResult : PyVal := .dict [
          ("success", .bool true),
          ("tokens", .int totalTokens),
          ("result", .dict [
            ("analysis", .str env.openai.analysis),
            ("technical_details", .dict [
              ("tokens_used", .int totalTokens),
              ("model_used", .str "gpt-4o"),
              ("word_count", .int ex.word_count),
              ("char_count", .int ex.char_count)])]),
          ("query", .str env.query),
          ("processing_method", .str "text_extraction + openai_only"),
          ("processing_time", .float env.elapsed)]
        (successResult, DocumentAgent.store env.pxAvailable successResult true)
      else
        let errorResult := docErrorResult env.query env.elapsed env.openai.error
        (errorResult, DocumentAgent.store env.pxAvailable errorResult false)
    else
      let errorResult := docErrorResult env.query env.elapsed (ex.error.getD "None")
      (errorResult, DocumentAgent.store env.pxAvailable errorResult false)
  let fs2 := if env.sourcePath ≠ saved then cleanup_temp_file env.dataDir env.sourcePath fs1 else fs1
  ⟨out.1, out.2, fs2, saved⟩

/-- `DocumentAgent.process_document`: save, extract (fatal on failure),
analyze with the hosted model (failure only zeroes the token count and
the analysis text, it is not fatal here), then run the CrewAI crew
directly in the main try-block: if `crew.kickoff()` raises, control
reaches the generic handler and the request fails. -/
def DocumentAgent.process_document (env : DocEnv) : PipelineOut :=
  let saved := savedPathOf env.dataDir env.sourcePath env.userId env.ts env.uid env.copyOk
  let fs1 := fsAfterSave env.dataDir env.sourcePath env.userId env.ts env.uid env.copyOk env.fs0
  let ex := extract_document_text (pyToLower (pySuffix saved)) env.file
  let out :=
    if ex.success then
      if env.crewOk then
        let openaiTokens := if env.openai.success then env.openai.tokens else 0
        let crewTokens := if env.hasUsage then env.crewTokens else 0
        let totalTokens := openaiTokens + crewTokens
        let successResult : PyVal := .dict [
          ("success", .bool true),
          ("tokens", .int totalTokens),
          ("result", .dict [
            ("analysis", .str (if env.openai.success then env.openai.analysis else "")),
            ("enhanced_response", .str env.crewOutput),
            ("technical_details", .dict [
              ("tokens_used", .int totalTokens),
              ("token_breakdown", .dict [
                ("openai_analysis", .int openaiTokens),
                ("crew_enhancement", .int crewTokens)]),
              ("word_count", .int ex.word_count),
              ("char_count", .int ex.char_count)])]),
          ("query", .str env.query),
          ("processing_method", .str "text_extraction + openai + crewai_analysis"),
          ("processing_time", .float env.elapsed)]
        (successResult, DocumentAgent.store env.pxAvailable successResult true)
      else
        let errorResult := docErrorResult env.query env.elapsed env.crewError
        (errorResult, DocumentAgent.store env.pxAvailable errorResult false)
    else
      let errorResult := docErrorResult env.query env.elapsed (ex.error.getD "None")
      (errorResult, DocumentAgent.store env.pxAvailable errorResult false)
  let fs2 := if env.sourcePath ≠ saved then cleanup_temp_file env.dataDir env.sourcePath fs1 else fs1
  ⟨out.1, out.2, fs2, saved⟩

-- ---------------------------------------------------------------------------
-- Audio agent (audio_agent.py).
-- ---------------------------------------------------------------------------

/-- Environment of one audio-agent invocation. -/
structure AudioEnv where
  fs0 : List String
  dataDir : String
  sourcePath : String
  query : String
  userId : String
  ts : ℕ
  uid : String
  copyOk : Bool
  transcribe : TranscribeResult
  openai : StageResult
  crew : CrewResult
  elapsed : ℚ
  pxAvailable : Bool

/-- `analyze_audio_with_openai` refuses an empty transcript before
calling the hosted model; otherwise the call outcome is the oracle. -/
def analyze_audio (transcript : String) (oracle : StageResult) : StageResult :=
  if transcript = "" then ⟨false, "", 0, "No transcript available for analysis"⟩
  else oracle

/-- `AudioAgent.store_to_pixeltable`: tokens are read from
`result.get("result", {}).get("technical_details", {}).get("tokens_used", 0)`;
the audio record is inserted only on success, the tracking record
always. -/
def AudioAgent.store (pxAvailable : Bool) (result : PyVal) (success : Bool) :
    List DBWrite :=
  if pxAvailable then
    let tokens := ((result.getDictD "result").getDictD "technical_details").getIntD "tokens_used" 0
    (if success then [.media "audio" tokens] else []) ++
      [.tracking "audio" tokens success (result.getStrOpt "error")]
  else []

/-- The error ProcessingResult built by the audio and video agents
(`{"success": False, "error": str(e), "query": ..., "processing_time":
...}`): note there is no top-level `tokens` entry. -/
def avErrorResult (query : String) (elapsed : ℚ) (msg : String) : PyVal :=
  .dict [
    ("success", .bool false),
    ("error", .str msg),
    ("query", .str query),
    ("processing_time", .float elapsed)]

/-- `AudioAgent.quick_analyze`: save, transcribe (fatal on failure),
analyze (fatal on failure), persist, clean up in `finally`. -/
def AudioAgent.quick_analyze (env : AudioEnv) : PipelineOut :=
  let saved := savedPathOf env.dataDir env.sourcePath env.userId env.ts env.uid env.copyOk
  let fs1 := fsAfterSave env.dataDir env.sourcePath env.userId env.ts env.uid env.copyOk env.fs0
  let out :=
    if env.transcribe.success then
      let openaiResult := analyze_audio env.transcribe.transcript env.openai
      if openaiResult.success then
        let successResult : PyVal := .dict [
          ("success", .bool true),
          ("result", .dict [
            ("transcript", .str env.transcribe.transcript),
            ("analysis", .str openaiResult.analysis),
            ("technical_details", .dict [
              ("tokens_used", .int openaiResult.tokens)])]),
          ("query", .str env.query),
          ("processing_method", .str "whisper + openai_only"),
          ("processing_time", .float env.elapsed)]
        (successResult, AudioAgent.store env.pxAvailable successResult true)
      else
        let errorResult := avErrorResult env.query env.elapsed openaiResult.error
        (errorResult, AudioAgent.store env.pxAvailable errorResult false)
    else
      let errorResult := avErrorResult env.query env.elapsed env.transcribe.error
      (errorResult, AudioAgent.store env.pxAvailable errorResult false)
  let fs2 := if env.sourcePath ≠ saved then cleanup_temp_file env.dataDir env.sourcePath fs1 else fs1
  ⟨out.1, out.2, fs2, saved⟩

/-- `AudioAgent.process_audio`: `quick_analyze` plus the CrewAI
enhancement stage, whose failure is absorbed
(`crew_result.get("enhanced_analysis", "") if crew_result.get("success")
else ""`, `crew_result.get("tokens_used", 0)` defaulting to 0). -/
def AudioAgent.process_audio (env : AudioEnv) : PipelineOut :=
  let saved := savedPathOf env.dataDir env.sourcePath env.userId env.ts env.uid env.copyOk
  let fs1 := fsAfterSave env.dataDir env.sourcePath env.userId env.ts env.uid env.copyOk env.fs0
  let out :=
    if env.transcribe.success then
      let openaiResult := analyze_audio env.transcribe.transcript env.openai
      if openaiResult.success then
        let crewTokens := if env.crew.success then env.crew.tokens else 0
        let totalTokens := openaiResult.tokens + crewTokens
        let successResult : PyVal := .dict [
          ("success", .bool true),
          ("result", .dict [
            ("transcript", .str env.transcribe.transcript),
            ("primary_analysis", .str openaiResult.analysis),
            ("enhanced_response", .str (if env.crew.success then env.crew.output else "")),
            ("technical_details", .dict [
              ("tokens_used", .int totalTokens)])]),
          ("query", .str env.query),
          ("processing_method", .str "whisper + openai + crewai"),
          ("processing_time", .float env.elapsed)]
        (successResult, AudioAgent.store env.pxAvailable successResult true)
      else
        let errorResult := avErrorResult env.query env.elapsed openaiResult.error
        (errorResult, AudioAgent.store env.pxAvailable errorResult false)
    else
      let errorResult := avErrorResult env.query env.elapsed env.transcribe.error
      (errorResult, AudioAgent.store env.pxAvailable errorResult false)
  let fs2 := if env.sourcePath ≠ saved then cleanup_temp_file env.dataDir env.sourcePath fs1 else fs1
  ⟨out.1, out.2, fs2, saved⟩

-- ---------------------------------------------------------------------------
-- Video agent (video_agent.py).
-- ---------------------------------------------------------------------------

/-- Environment of one video-agent invocation.  `duration` is what
ffprobe reports for the saved copy; `ffmpegOk i` is whether the i-th
ffmpeg frame command (1-indexed) runs without raising; `frameOk i` is
whether the i-th frame file exists afterwards. -/
structure VideoEnv where
  fs0 : List String
  dataDir : String
  sourcePath : String
  query : String
  userId : String
  ts : ℕ
  uid : String
  copyOk : Bool
  duration : ℚ
  ffmpegOk : ℕ → Bool
  frameOk : ℕ → Bool
  analyze : StageResult
  crew : CrewResult
  elapsed : ℚ
  pxAvailable : Bool

/-- The frame-extraction loop of `extract_frames`
(`for i in range(1, num_frames + 1)`): at index `i` the command for
timestamp `interval * i` is issued; a raising ffmpeg call aborts the
whole loop (the surrounding handler returns `[]`), otherwise the frame
index is collected when the frame file exists.  Returns the issued
timestamps, the collected frame indices, and the abort flag. -/
def extractLoop (ffmpegOk frameOk : ℕ → Bool) (interval : ℚ) :
    ℕ → ℕ → List ℚ × List ℕ × Bool
  | _, 0 => ([], [], false)
  | i, Nat.succ n =>
    if ffmpegOk i then
      let rec' := extractLoop ffmpegOk frameOk interval (i + 1) n
      ((interval * i) :: rec'.1, (if frameOk i then i :: rec'.2.1 else rec'.2.1), rec'.2.2)
    else ([interval * i], [], true)

/-- The result of `extract_frames`: the timestamps requested from
ffmpeg and the extracted frames. -/
structure FramesOut where
  requested : List ℚ
  frames : List ℕ

/-- `VideoAgent.extract_frames`: `interval = duration / (num_frames + 1)`,
one frame requested at `interval * i` for `i = 1..num_frames`; a
non-positive duration raises before the loop and yields `[]`; any
ffmpeg error also yields `[]` (the handler catches and returns `[]`). -/
def VideoAgent.extract_frames (env : VideoEnv) (numFrames : ℕ) : FramesOut :=
  if env.duration ≤ 0 then ⟨[], []⟩
  else
    let interval := env.duration / ((numFrames : ℚ) + 1)
    let res := extractLoop env.ffmpegOk env.frameOk interval 1 numFrames
    ⟨res.1, if res.2.2 then [] else res.2.1⟩

/-- `VideoAgent.store_to_pixeltable`: tokens are read from
`result.get("result", {}).get("technical_details", {}).get("tokens_used", 0)`;
the video record is inserted only on success, the tracking record
always. -/
def VideoAgent.store (pxAvailable : Bool) (result : PyVal) (success : Bool) :
    List DBWrite :=
  if pxAvailable then
    let tokens := ((result.getDictD "result").getDictD "technical_details").getIntD "tokens_used" 0
    (if success then [.media "video" tokens] else []) ++
      [.tracking "video" tokens success (result.getStrOpt "error")]
  else []

/-- `VideoAgent.quick_analyze`: save, extract 3 frames (no frames is
fatal: `raise ValueError("Frame extraction failed")`), analyze the
frames (fatal on failure), persist, clean up in `finally`. -/
def VideoAgent.quick_analyze (env : VideoEnv) : PipelineOut :=
  let saved := savedPathOf env.dataDir env.sourcePath env.userId env.ts env.uid env.copyOk
  let fs1 := fsAfterSave env.dataDir env.sourcePath env.userId env.ts env.uid env.copyOk env.fs0
  let frames := VideoAgent.extract_frames env 3
  let out :=
    if frames.frames.isEmpty then
      let errorResult := avErrorResult env.query env.elapsed "Frame extraction failed"
      (errorResult, VideoAgent.store env.pxAvailable errorResult false)
    else
      if env.analyze.success then
        let successResult : PyVal := .dict [
          ("success", .bool true),
          ("result", .dict [
            ("analysis", .str env.analyze.analysis),
            ("technical_details", .dict [
              ("model_used", .str "gpt-4o"),
              ("tokens_used", .int env.analyze.tokens)])]),
          ("query", .str env.query),
          ("processing_method", .str "frame_extraction + openai_vision_only"),
          ("processing_time", .float env.elapsed)]
        (successResult, VideoAgent.store env.pxAvailable successResult true)
      else
        let errorResult := avErrorResult env.query env.elapsed env.analyze.error
        (errorResult, VideoAgent.store env.pxAvailable errorResult false)
  let fs2 := if env.sourcePath ≠ saved then cleanup_temp_file env.dataDir env.sourcePath fs1 else fs1
  ⟨out.1, out.2, fs2, saved⟩

/-- `VideoAgent.process_video`: like `quick_analyze` with 6 frames and
the CrewAI enhancement stage, whose failure is absorbed. -/
def VideoAgent.process_video (env : VideoEnv) : PipelineOut :=
  let saved := savedPathOf env.dataDir env.sourcePath env.userId env.ts env.uid env.copyOk
  let fs1 := fsAfterSave env.dataDir env.sourcePath env.userId env.ts env.uid env.copyOk env.fs0
  let frames := VideoAgent.extract_frames env 6
  let out :=
    if frames.frames.isEmpty then
      let errorResult := avErrorResult env.query env.elapsed "Frame extraction failed"
      (errorResult, VideoAgent.store env.pxAvailable errorResult false)
    else
      if env.analyze.success then
        let crewTokens := if env.crew.success then env.crew.tokens else 0
        let totalTokens := env.analyze.tokens + crewTokens
        let successResult : PyVal := .dict [
          ("success", .bool true),
          ("result", .dict [
            ("primary_analysis", .str env.analyze.analysis),
            ("enhanced_response", .str (if env.crew.success then env.crew.output else "")),
            ("technical_details", .dict [
              ("tokens_used", .int totalTokens)])]),
          ("query", .str env.query),
          ("processing_method", .str "frame_extraction + openai_vision + crewai_enhancement"),
          ("processing_time", .float env.elapsed)]
        (successResult, VideoAgent.store env.pxAvailable successResult true)
      else
        let errorResult := avErrorResult env.query env.elapsed env.analyze.error
        (errorResult, VideoAgent.store env.pxAvailable errorResult false)
  let fs2 := if env.sourcePath ≠ saved then cleanup_temp_file env.dataDir env.sourcePath fs1 else fs1
  ⟨out.1, out.2, fs2, saved⟩

-- ---------------------------------------------------------------------------
-- HTTP layer (main.py): the four upload endpoints.
-- ---------------------------------------------------------------------------

/-- Python `str(value)` for the values that can reach the
result-shaping code of the handlers.  In this codebase the pipeline
result key is either absent (`str(None) = "None"`) or a dict (never
stringified); scalar cases follow Python, aggregate and float renderings
are unreachable through the embedded agents. -/
def pyStr : PyVal → String
  | .none => "None"
  | .bool true => "True"
  | .bool false => "False"
  | .int n => if n < 0 then "-" ++ natStr n.natAbs else natStr n.natAbs
  | .float _ => ""
  | .str s => s
  | .list _ => ""
  | .dict _ => ""

/-- The response model `QueryResponse` of main.py. -/
structure QueryResponseM where
  success : Bool
  result : PyVal
  query : String
  file_processed : Bool
  error : Option String

/-- What a handler returns: a 4xx `HTTPException` raised before any
processing, or an HTTP 200 response with the declared model. -/
inductive HTTPResult where
  | clientError (status : ℕ) (detail : String)
  | ok (resp : QueryResponseM)

/-- The shared shape of the four upload handlers
(`process_image_query` etc. in main.py): reject the upload with a 400
before any processing when the lowercased suffix of the filename is not
in the allow-list; otherwise run the pipeline (its result is the
`agentResult` argument: the rejected branch never consumes it), wrap a
non-dict `result` field as `{"analysis": str(value)}`, and answer 200
with `success = result.get("success", False)` and
`error = result.get("error")`. -/
def processUploadEndpoint (allowed : List String) (modalityName : String)
    (filename query : String) (agentResult : PyVal) : HTTPResult :=
  let ext := pyToLower (pySuffix filename)
  if ext ∈ allowed then
    let resData :=
      match agentResult.get "result" with
      | some v => if v.isDict then v else PyVal.dict [("analysis", .str (pyStr v))]
      | Option.none => PyVal.dict [("analysis", .str (pyStr .none))]
    .ok {
      success := agentResult.getBoolD "success" false,
      result := resData,
      query := query,
      file_processed := true,
      error := agentResult.getStrOpt "error" }
  else
    .clientError 400 ("Unsupported " ++ modalityName ++ " file type: " ++ ext)

/-- `POST /process-image` (main.py). -/
def process_image_query (filename query : String) (agentResult : PyVal) : HTTPResult :=
  processUploadEndpoint allowedImageExtensions "image" filename query agentResult

/-- `POST /process-document` (main.py). -/
def process_document_query (filename query : String) (agentResult : PyVal) : HTTPResult :=
  processUploadEndpoint allowedDocExtensions "document" filename query agentResult

/-- `POST /process-audio` (main.py). -/
def process_audio_query (filename query : String) (agentResult : PyVal) : HTTPResult :=
  processUploadEndpoint allowedAudioExtensions "audio" filename query agentResult

/-- `POST /process-video` (main.py). -/
def process_video_query (filename query : String) (agentResult : PyVal) : HTTPResult :=
  processUploadEndpoint allowedVideoExtensions "video" filename query agentResult

-- ---------------------------------------------------------------------------
-- Shared claim predicates and concrete environments used to instantiate
-- the theorems below.
-- ---------------------------------------------------------------------------

/-- Exactly one tracking write, and a media write exactly when the
returned ProcessingResult reports success. -/
def tracksOnce (out : PipelineOut) : Prop :=
  out.writes.countP DBWrite.isTracking = 1 ∧
  out.writes.countP DBWrite.isMedia = (if out.result.getBoolD "success" false then 1 else 0)

/-- Cleanup contract of one pipeline invocation: when the durable copy
differs from the original, the original is gone afterwards, and a
durable copy inside the data directory still exists afterwards. -/
def cleanupOk (sourcePath dataDir : String) (out : PipelineOut) : Prop :=
  (out.savedPath ≠ sourcePath → sourcePath ∉ out.fs) ∧
  (pyStartswith out.savedPath dataDir = true → out.savedPath ∈ out.fs)

/-- A `.txt` document file with two words of content. -/
def docFileTwoWords : DocFileEnv := ⟨"hello world", .ok "", .ok ""⟩

/-- A `.txt` document file whose content is a single space: valid UTF-8
text, but whitespace-only. -/
def docFileBlank : DocFileEnv := ⟨" ", .ok "", .ok ""⟩

/-- Image invocation where the hosted-model analysis succeeds with 42
tokens and the CrewAI enhancement fails. -/
def imgEnvCrewFail : ImageEnv :=
  ⟨["/tmp/up.jpg"], "data/images", "/tmp/up.jpg", "", "u", 1700000000, "abcdef01",
    true, ⟨true, "base analysis", 42, ""⟩,
    ⟨false, "", 0, "CrewAI enhancement error: boom"⟩, 0, true⟩

/-- Image invocation where the hosted-model analysis fails. -/
def imgEnvAnalyzeFail : ImageEnv :=
  ⟨["/tmp/up.jpg"], "data/images", "/tmp/up.jpg", "", "u", 1700000000, "abcdef01",
    true, ⟨false, "", 0, "OpenAI Vision API error: down"⟩,
    ⟨true, "x", 0, ""⟩, 0, true⟩

/-- Document invocation on a two-word `.txt` file where every external
call succeeds. -/
def docEnvOk : DocEnv :=
  ⟨["/tmp/a.txt"], "data/documents", "/tmp/a.txt", "", "u", 1700000000, "abcdef01",
    true, docFileTwoWords, ⟨true, "doc analysis", 40, ""⟩,
    true, "enhanced", "", true, 2, 0, true⟩

/-- Document invocation identical to `docEnvOk` except that the raw
`crew.kickoff()` call in `process_document` raises. -/
def docEnvCrewFail : DocEnv :=
  ⟨["/tmp/a.txt"], "data/documents", "/tmp/a.txt", "", "u", 1700000000, "abcdef01",
    true, docFileTwoWords, ⟨true, "doc analysis", 40, ""⟩,
    false, "", "crew blew up", true, 2, 0, true⟩

/-- Document invocation on an unsupported `.rtf` upload: extraction
fails, the request is fatal. -/
def docEnvRtf : DocEnv :=
  ⟨["/tmp/a.rtf"], "data/documents", "/tmp/a.rtf", "", "u", 1700000000, "abcdef01",
    true, docFileTwoWords, ⟨true, "doc analysis", 40, ""⟩,
    true, "enhanced", "", true, 2, 0, true⟩

/-- Audio invocation where transcription and analysis succeed and the
CrewAI enhancement fails. -/
def audEnvCrewFail : AudioEnv :=
  ⟨["/tmp/a.mp3"], "data/audio", "/tmp/a.mp3", "", "u", 1700000000, "abcdef01",
    true, ⟨true, "a transcript", ""⟩, ⟨true, "audio analysis", 42, ""⟩,
    ⟨false, "", 0, "CrewAI enhancement error: boom"⟩, 0, true⟩

/-- Audio invocation where the transcription fails (as with a
nonexistent source path). -/
def audEnvTranscribeFail : AudioEnv :=
  ⟨["/tmp/a.mp3"], "data/audio", "/tmp/a.mp3", "", "u", 1700000000, "abcdef01",
    false, ⟨false, "", "Audio transcription failed: no such file"⟩,
    ⟨true, "x", 0, ""⟩, ⟨true, "y", 0, ""⟩, 0, true⟩

/-- Video invocation on a 60-second video where every external call
succeeds and the CrewAI enhancement fails. -/
def vidEnvCrewFail : VideoEnv :=
  ⟨["/tmp/v.mp4"], "data/videos", "/tmp/v.mp4", "", "u", 1700000000, "abcdef01",
    true, 60, fun _ => true, fun _ => true, ⟨true, "video analysis", 42, ""⟩,
    ⟨false, "", 0, "CrewAI enhancement error: boom"⟩, 0, true⟩

/-- Video invocation where ffprobe reports no duration (as with a
nonexistent source path): frame extraction yields no frames. -/
def vidEnvNoFrames : VideoEnv :=
  ⟨["/tmp/v.mp4"], "data/videos", "/tmp/v.mp4", "", "u", 1700000000, "abcdef01",
    true, 0, fun _ => true, fun _ => true, ⟨true, "x", 0, ""⟩,
    ⟨true, "y", 0, ""⟩, 0, true⟩

/-- Video invocation whose original input path already lies inside the
data folder of the agent: the durable copy gets a fresh name, yet
`cleanup_temp_file` refuses to delete the original. -/
def vidEnvInsideDataDir : VideoEnv :=
  ⟨["data/videos/orig.mp4"], "data/videos", "data/videos/orig.mp4", "", "u", 1700000000,
    "abcdef01", true, 60, fun _ => true, fun _ => true, ⟨true, "video analysis", 42, ""⟩,
    ⟨true, "enhanced", 3, ""⟩, 0, true⟩

-- ---------------------------------------------------------------------------
-- Helper lemmas: Python split/strip.
-- ---------------------------------------------------------------------------

theorem pySplit_nil : pySplitChars [] = [] := by rw [pySplitChars]

theorem pySplit_cons_space (c : Char) (rest : List Char) (hc : isPySpace c = true) :
    pySplitChars (c :: rest) = pySplitChars rest := by
  rw [pySplitChars, if_pos hc]

theorem pySplit_cons_word (c : Char) (rest : List Char) (hc : isPySpace c = false) :
    pySplitChars (c :: rest) =
      (c :: rest.takeWhile (fun d => !(isPySpace d))) ::
        pySplitChars (rest.dropWhile (fun d => !(isPySpace d))) := by
  rw [pySplitChars, if_neg (by simp [hc])]

theorem pySplit_allSpace : ∀ (l : List Char), (∀ c ∈ l, isPySpace c = true) → pySplitChars l = [] := by
  intro l h
  induction l with
  | nil => exact pySplit_nil
  | cons c rest ih =>
    rw [pySplit_cons_space c rest (h c (by simp))]
    exact ih (fun d hd => h d (by simp [hd]))

theorem takeWhile_nonspace_allSpace (s : List Char) (hs : ∀ c ∈ s, isPySpace c = true) :
    s.takeWhile (fun d => !(isPySpace d)) = [] := by
  cases s with
  | nil => rfl
  | cons a as =>
    have := hs a (by simp)
    simp [List.takeWhile_cons, this]

theorem takeWhile_append_all (q : Char → Bool) (l s : List Char)
    (h : ∀ c ∈ l, q c = true) :
    (l ++ s).takeWhile q = l ++ s.takeWhile q := by
  induction l with
  | nil => simp
  | cons c rest ih =>
    simp only [List.cons_append, List.takeWhile_cons, h c (by simp), if_true]
    rw [ih (fun d hd => h d (by simp [hd]))]

theorem dropWhile_append_all (q : Char → Bool) (l s : List Char)
    (h : ∀ c ∈ l, q c = true) :
    (l ++ s).dropWhile q = s.dropWhile q := by
  induction l with
  | nil => simp
  | cons c rest ih =>
    simp only [List.cons_append, List.dropWhile_cons, h c (by simp), if_true]
    exact ih (fun d hd => h d (by simp [hd]))

theorem takeWhile_append_stop (q : Char → Bool) (l s : List Char)
    (h : l.dropWhile q ≠ []) :
    (l ++ s).takeWhile q = l.takeWhile q := by
  induction l with
  | nil => simp at h
  | cons c rest ih =>
    by_cases hc : q c = true
    · simp only [List.cons_append, List.takeWhile_cons, hc, if_true]
      rw [ih (by simpa [List.dropWhile_cons, hc] using h)]
    · simp only [List.cons_append, List.takeWhile_cons]
      simp [hc]

theorem dropWhile_append_stop (q : Char → Bool) (l s : List Char)
    (h : l.dropWhile q ≠ []) :
    (l ++ s).dropWhile q = l.dropWhile q ++ s := by
  induction l with
  | nil => simp at h
  | cons c rest ih =>
    by_cases hc : q c = true
    · simp only [List.cons_append, List.dropWhile_cons, hc, if_true]
      rw [ih (by simpa [List.dropWhile_cons, hc] using h)]
    · simp only [List.cons_append, List.dropWhile_cons]
      simp [hc]

theorem pySplit_append_space : ∀ (n : ℕ) (l s : List Char), l.length ≤ n →
    (∀ c ∈ s, isPySpace c = true) → pySplitChars (l ++ s) = pySplitChars l := by
  intro n
  induction n with
  | zero =>
    intro l s hl hs
    have : l = [] := List.eq_nil_of_length_eq_zero (Nat.le_zero.mp hl)
    subst this
    simp only [List.nil_append]
    rw [pySplit_allSpace s hs, pySplit_nil]
  | succ n ih =>
    intro l s hl hs
    cases l with
    | nil =>
      simp only [List.nil_append]
      rw [pySplit_allSpace s hs, pySplit_nil]
    | cons c rest =>
      have hrl : rest.length ≤ n := by
        simp only [List.length_cons] at hl
        omega
      rcases hcb : isPySpace c with hfalse | htrue
      · rw [List.cons_append, pySplit_cons_word c (rest ++ s) hcb, pySplit_cons_word c rest hcb]
        by_cases hall : ∀ d ∈ rest, (!(isPySpace d)) = true
        · rw [takeWhile_append_all _ rest s hall, dropWhile_append_all _ rest s hall]
          rw [takeWhile_nonspace_allSpace s hs]
          have hrt : rest.takeWhile (fun d => !(isPySpace d)) = rest :=
            List.takeWhile_eq_self_iff.mpr hall
          have hrd : rest.dropWhile (fun d => !(isPySpace d)) = [] :=
            List.dropWhile_eq_nil_iff.mpr hall
          rw [hrt, hrd, List.append_nil, pySplit_nil]
          have hsub : ∀ x ∈ s.dropWhile (fun d => !(isPySpace d)), isPySpace x = true := by
            intro x hx
            exact hs x ((List.dropWhile_sublist _).subset hx)
          rw [pySplit_allSpace _ hsub]
        · push_neg at hall
          have hne : rest.dropWhile (fun d => !(isPySpace d)) ≠ [] := by
            intro hnil
            obtain ⟨x, hx, hpx⟩ := hall
            exact hpx (List.dropWhile_eq_nil_iff.mp hnil x hx)
          rw [takeWhile_append_stop _ rest s hne, dropWhile_append_stop _ rest s hne]
          congr 1
          have hlen : (rest.dropWhile (fun d => !(isPySpace d))).length ≤ n := by
            have h1 := List.Sublist.length_le (List.dropWhile_sublist (l := rest) (fun d => !(isPySpace d)))
            omega
          exact ih _ s hlen hs
      · rw [List.cons_append, pySplit_cons_space c (rest ++ s) hcb, pySplit_cons_space c rest hcb]
        exact ih rest s hrl hs

theorem pySplit_dropWhile (l : List Char) :
    pySplitChars (l.dropWhile isPySpace) = pySplitChars l := by
  induction l with
  | nil => simp
  | cons c rest ih =>
    rcases hcb : isPySpace c with hfalse | htrue
    · rw [List.dropWhile_cons, if_neg (by simp [hcb])]
    · rw [List.dropWhile_cons, if_pos hcb, ih, pySplit_cons_space c rest hcb]

theorem pySplit_strip (l : List Char) :
    pySplitChars (pyStripChars l) = pySplitChars l := by
  unfold pyStripChars
  set m := l.dropWhile isPySpace with hm
  have hdecomp : m = (m.reverse.dropWhile isPySpace).reverse ++ (m.reverse.takeWhile isPySpace).reverse := by
    conv_lhs => rw [← List.reverse_reverse m]
    rw [← List.reverse_append, List.takeWhile_append_dropWhile]
  have hsp : ∀ c ∈ (m.reverse.takeWhile isPySpace).reverse, isPySpace c = true := by
    intro c hc
    exact List.mem_takeWhile_imp (List.mem_reverse.mp hc)
  calc pySplitChars (m.reverse.dropWhile isPySpace).reverse
      = pySplitChars ((m.reverse.dropWhile isPySpace).reverse ++ (m.reverse.takeWhile isPySpace).reverse) :=
        (pySplit_append_space _ _ _ (le_refl _) hsp).symm
    _ = pySplitChars m := by rw [← hdecomp]
    _ = pySplitChars l := pySplit_dropWhile l

theorem mem_dropWhile_of_neg (p : Char → Bool) (x : Char) :
    ∀ (l : List Char), x ∈ l → p x = false → x ∈ l.dropWhile p := by
  intro l hx hpx
  induction l with
  | nil => simp at hx
  | cons c rest ih =>
    rw [List.dropWhile_cons]
    by_cases hc : p c = true
    · rw [if_pos hc]
      rcases List.mem_cons.mp hx with h | h
      · subst h; rw [hpx] at hc; simp at hc
      · exact ih h
    · rw [if_neg hc]
      exact hx

theorem strip_ne_nil_of_nonspace (l : List Char) (x : Char)
    (hx : x ∈ l) (hpx : isPySpace x = false) : pyStripChars l ≠ [] := by
  unfold pyStripChars
  intro hnil
  have h1 : x ∈ l.dropWhile isPySpace := mem_dropWhile_of_neg _ _ l hx hpx
  have h2 : x ∈ (l.dropWhile isPySpace).reverse := List.mem_reverse.mpr h1
  have h3 : x ∈ (l.dropWhile isPySpace).reverse.dropWhile isPySpace :=
    mem_dropWhile_of_neg _ _ _ h2 hpx
  rw [List.reverse_eq_nil_iff.mp hnil] at h3
  simp at h3

-- ---------------------------------------------------------------------------
-- Helper lemmas: decimal rendering and filename injectivity.
-- ---------------------------------------------------------------------------

theorem digitsFuel_eq_digits : ∀ (fuel n : ℕ), n ≤ fuel → digitsFuel fuel n = Nat.digits 10 n := by
  intro fuel
  induction fuel with
  | zero =>
    intro n hn
    have : n = 0 := Nat.le_zero.mp hn
    subst this
    simp [digitsFuel, Nat.digits_zero]
  | succ fuel ih =>
    intro n hn
    by_cases h0 : n = 0
    · subst h0
      simp [digitsFuel, Nat.digits_zero]
    · unfold digitsFuel
      rw [if_neg h0]
      have hdiv : n / 10 ≤ fuel := by
        have := Nat.div_lt_self (Nat.pos_of_ne_zero h0) (by norm_num : 1 < 10)
        omega
      rw [ih (n / 10) hdiv]
      exact (Nat.digits_def' (by norm_num : 1 < 10) (Nat.pos_of_ne_zero h0)).symm

theorem natChars_eq (n : ℕ) :
    natChars n = if n = 0 then ['0'] else ((Nat.digits 10 n).map decDigitChar).reverse := by
  unfold natChars natDigits
  rw [digitsFuel_eq_digits n n (le_refl n)]

theorem decDigitChar_inj_lt : ∀ d < 10, ∀ e < 10, decDigitChar d = decDigitChar e → d = e := by
  decide

theorem decDigitChar_ne_us : ∀ d < 10, decDigitChar d ≠ '_' := by decide

theorem natChars_no_us (n : ℕ) : '_' ∉ natChars n := by
  rw [natChars_eq]
  by_cases h : n = 0
  · simp [h]
  · rw [if_neg h]
    intro hm
    rw [List.mem_reverse] at hm
    obtain ⟨d, hd, hde⟩ := List.mem_map.mp hm
    have hlt : d < 10 := Nat.digits_lt_base (by norm_num) hd
    exact decDigitChar_ne_us d hlt hde

theorem map_decDigitChar_inj (l1 : List ℕ) : ∀ (l2 : List ℕ),
    (∀ x ∈ l1, x < 10) → (∀ x ∈ l2, x < 10) →
    l1.map decDigitChar = l2.map decDigitChar → l1 = l2 := by
  induction l1 with
  | nil =>
    intro l2 _ _ h
    cases l2 with
    | nil => rfl
    | cons b bs => simp at h
  | cons a as ih =>
    intro l2 h1 h2 h
    cases l2 with
    | nil => simp at h
    | cons b bs =>
      simp only [List.map_cons, List.cons.injEq] at h
      have ha : a = b := decDigitChar_inj_lt a (h1 a (by simp)) b (h2 b (by simp)) h.1
      have hbs : as = bs :=
        ih bs (fun x hx => h1 x (by simp [hx])) (fun x hx => h2 x (by simp [hx])) h.2
      rw [ha, hbs]

theorem digits_singleton_zero_absurd (b : ℕ) (hb : b ≠ 0) (h : Nat.digits 10 b = [0]) : False := by
  have hof := Nat.ofDigits_digits 10 b
  rw [h] at hof
  simp [Nat.ofDigits] at hof
  exact hb hof.symm

theorem natChars_injective (a b : ℕ) (h : natChars a = natChars b) : a = b := by
  rw [natChars_eq a, natChars_eq b] at h
  by_cases ha : a = 0 <;> by_cases hb : b = 0
  · rw [ha, hb]
  · exfalso
    rw [if_pos ha, if_neg hb] at h
    have hz : '0' ∈ (Nat.digits 10 b).map decDigitChar := by
      rw [← List.mem_reverse, ← h]; simp
    obtain ⟨d, hd, hde⟩ := List.mem_map.mp hz
    have hlt : d < 10 := Nat.digits_lt_base (by norm_num) hd
    have hd0 : d = 0 := by
      have h0 : decDigitChar 0 = '0' := by decide
      exact decDigitChar_inj_lt d hlt 0 (by norm_num) (by rw [hde, h0])
    have hlen : (Nat.digits 10 b).length = 1 := by
      have := congrArg List.length h
      simp at this
      omega
    have hsing : Nat.digits 10 b = [0] := by
      rcases hdig : Nat.digits 10 b with _ | ⟨x, xs⟩
      · rw [hdig] at hlen; simp at hlen
      · rw [hdig] at hlen
        simp only [List.length_cons] at hlen
        have hxs : xs = [] := List.eq_nil_of_length_eq_zero (by omega)
        subst hxs
        rw [hdig] at hd
        simp at hd
        rw [← hd, ← hd0]
    exact digits_singleton_zero_absurd b hb hsing
  · exfalso
    rw [if_neg ha, if_pos hb] at h
    have hz : '0' ∈ (Nat.digits 10 a).map decDigitChar := by
      rw [← List.mem_reverse, h]; simp
    obtain ⟨d, hd, hde⟩ := List.mem_map.mp hz
    have hlt : d < 10 := Nat.digits_lt_base (by norm_num) hd
    have hd0 : d = 0 := by
      have h0 : decDigitChar 0 = '0' := by decide
      exact decDigitChar_inj_lt d hlt 0 (by norm_num) (by rw [hde, h0])
    have hlen : (Nat.digits 10 a).length = 1 := by
      have := congrArg List.length h
      simp at this
      omega
    have hsing : Nat.digits 10 a = [0] := by
      rcases hdig : Nat.digits 10 a with _ | ⟨x, xs⟩
      · rw [hdig] at hlen; simp at hlen
      · rw [hdig] at hlen
        simp only [List.length_cons] at hlen
        have hxs : xs = [] := List.eq_nil_of_length_eq_zero (by omega)
        subst hxs
        rw [hdig] at hd
        simp at hd
        rw [← hd, ← hd0]
    exact digits_singleton_zero_absurd a ha hsing
  · rw [if_neg ha, if_neg hb] at h
    have hrev := List.reverse_injective h
    have hdig := map_decDigitChar_inj _ _
      (fun x hx => Nat.digits_lt_base (by norm_num) hx)
      (fun x hx => Nat.digits_lt_base (by norm_num) hx) hrev
    calc a = Nat.ofDigits 10 (Nat.digits 10 a) := (Nat.ofDigits_digits 10 a).symm
    _ = Nat.ofDigits 10 (Nat.digits 10 b) := by rw [hdig]
    _ = b := Nat.ofDigits_digits 10 b

theorem sep_split_first (sep : Char) :
    ∀ (xs1 xs2 ys1 ys2 : List Char), sep ∉ xs1 → sep ∉ xs2 →
      xs1 ++ sep :: ys1 = xs2 ++ sep :: ys2 → xs1 = xs2 ∧ ys1 = ys2 := by
  intro xs1
  induction xs1 with
  | nil =>
    intro xs2 ys1 ys2 _ h2 h
    cases xs2 with
    | nil =>
      simp only [List.nil_append, List.cons.injEq] at h
      exact ⟨rfl, h.2⟩
    | cons c cs =>
      simp only [List.nil_append, List.cons_append, List.cons.injEq] at h
      exfalso
      exact h2 (by rw [h.1]; simp)
  | cons a as ih =>
    intro xs2 ys1 ys2 h1 h2 h
    cases xs2 with
    | nil =>
      simp only [List.cons_append, List.nil_append, List.cons.injEq] at h
      exfalso
      exact h1 (by rw [← h.1]; simp)
    | cons c cs =>
      simp only [List.cons_append, List.cons.injEq] at h
      have has : sep ∉ as := fun hm => h1 (by simp [hm])
      have hcs : sep ∉ cs := fun hm => h2 (by simp [hm])
      obtain ⟨hx, hy⟩ := ih cs ys1 ys2 has hcs h.2
      exact ⟨by rw [h.1, hx], hy⟩

theorem sep_split_last (sep : Char) (u1 u2 t1 t2 : List Char)
    (h1 : sep ∉ t1) (h2 : sep ∉ t2)
    (h : u1 ++ sep :: t1 = u2 ++ sep :: t2) : u1 = u2 ∧ t1 = t2 := by
  have hrev := congrArg List.reverse h
  simp only [List.reverse_append, List.reverse_cons] at hrev
  rw [List.append_assoc, List.append_assoc, List.singleton_append, List.singleton_append] at hrev
  have h1' : sep ∉ t1.reverse := fun hm => h1 (List.mem_reverse.mp hm)
  have h2' : sep ∉ t2.reverse := fun hm => h2 (List.mem_reverse.mp hm)
  obtain ⟨ht, hu⟩ := sep_split_first sep t1.reverse t2.reverse u1.reverse u2.reverse h1' h2' hrev
  exact ⟨List.reverse_injective hu, List.reverse_injective ht⟩

theorem makeFilenameChars_inj (u1 u2 : List Char) (ts1 ts2 : ℕ) (i1 i2 nm : List Char)
    (hl1 : i1.length = 8) (hl2 : i2.length = 8)
    (h : makeFilenameChars u1 ts1 i1 nm = makeFilenameChars u2 ts2 i2 nm) :
    u1 = u2 ∧ ts1 = ts2 ∧ i1 = i2 := by
  unfold makeFilenameChars at h
  have hre : ∀ (u : List Char) (ts : ℕ) (i : List Char),
      u ++ '_' :: (natChars ts ++ '_' :: (i ++ '_' :: nm))
        = ((u ++ '_' :: natChars ts) ++ ('_' :: i ++ ['_'])) ++ nm := by
    intro u ts i
    simp [List.append_assoc]
  rw [hre u1 ts1 i1, hre u2 ts2 i2] at h
  have h1 := List.append_cancel_right h
  have h2 := List.append_inj' h1 (by simp [hl1, hl2])
  obtain ⟨hA, hB⟩ := h2
  have hi : i1 = i2 := by
    have hB' : ('_' :: i1) ++ ['_'] = ('_' :: i2) ++ ['_'] := by simpa using hB
    have := List.append_cancel_right hB'
    simpa using this
  obtain ⟨hu, hT⟩ := sep_split_last '_' u1 u2 (natChars ts1) (natChars ts2)
    (natChars_no_us ts1) (natChars_no_us ts2) hA
  exact ⟨hu, natChars_injective ts1 ts2 hT, hi⟩

theorem string_data_inj (s t : String) (h : s.data = t.data) : s = t := by
  cases s; cases t; exact congrArg String.mk h

theorem makeFilename_inj (u1 u2 : String) (ts1 ts2 : ℕ) (i1 i2 nm : String)
    (hl1 : i1.length = 8) (hl2 : i2.length = 8)
    (h : makeFilename u1 ts1 i1 nm = makeFilename u2 ts2 i2 nm) :
    u1 = u2 ∧ ts1 = ts2 ∧ i1 = i2 := by
  unfold makeFilename at h
  have hdata : makeFilenameChars u1.data ts1 i1.data nm.data
      = makeFilenameChars u2.data ts2 i2.data nm.data := by
    injection h
  obtain ⟨hu, ht, hi⟩ := makeFilenameChars_inj u1.data u2.data ts1 ts2 i1.data i2.data nm.data
    hl1 hl2 hdata
  exact ⟨string_data_inj _ _ hu, ht, string_data_inj _ _ hi⟩

theorem isPrefixOf_append_self (l r : List Char) : l.isPrefixOf (l ++ r) = true := by
  induction l with
  | nil => simp [List.isPrefixOf]
  | cons c cs ih => simp [List.isPrefixOf, ih]

theorem pyStartswith_joinPath (d f : String) : pyStartswith (joinPath d f) d = true := by
  unfold pyStartswith joinPath
  have hdata : (d ++ "/" ++ f).data = d.data ++ ('/' :: f.data) := by simp
  rw [hdata]
  exact isPrefixOf_append_self d.data ('/' :: f.data)

-- ---------------------------------------------------------------------------
-- Claim theorems.
-- ---------------------------------------------------------------------------

/-- Claim C10: the accepted-format lists reported by GET /health are not
equal to the allow-lists enforced by the upload endpoints: the health
report omits .flac for audio and .webm for video although the audio and
video endpoints accept them, so for those two modalities the reported
set is a strict subset of the enforced set. -/
theorem C10_health_formats_strict_subset :
    healthSupportedAudioFormats.all (fun x => allowedAudioExtensions.contains x) = true ∧
    allowedAudioExtensions.contains ".flac" = true ∧
    healthSupportedAudioFormats.contains ".flac" = false ∧
    healthSupportedVideoFormats.all (fun x => allowedVideoExtensions.contains x) = true ∧
    allowedVideoExtensions.contains ".webm" = true ∧
    healthSupportedVideoFormats.contains ".webm" = false := by
  decide

/-- Claim C6: the durable-folder filename generator
`{user_id}_{unix_ts}_{8-hex-uuid}_{original_name}{ext}` is injective
over its inputs: two calls with different (user_id, timestamp,
random-id) tuples generate different destination filenames even for an
identical original filename, hence two save-to-folder calls on the same
source file produce two distinct destination paths. -/
theorem C6_filename_generator_injective (u1 u2 : String) (ts1 ts2 : ℕ)
    (id1 id2 nm dataDir : String)
    (hl1 : id1.length = 8) (hl2 : id2.length = 8)
    (hne : (u1, ts1, id1) ≠ (u2, ts2, id2)) :
    makeFilename u1 ts1 id1 nm ≠ makeFilename u2 ts2 id2 nm ∧
    joinPath dataDir (makeFilename u1 ts1 id1 nm) ≠
      joinPath dataDir (makeFilename u2 ts2 id2 nm) := by
  have hname : makeFilename u1 ts1 id1 nm ≠ makeFilename u2 ts2 id2 nm := by
    intro h
    obtain ⟨hu, ht, hi⟩ := makeFilename_inj u1 u2 ts1 ts2 id1 id2 nm hl1 hl2 h
    exact hne (by rw [hu, ht, hi])
  refine ⟨hname, fun h => hname ?_⟩
  unfold joinPath at h
  have hdata := congrArg String.data h
  simp only [String.data_append] at hdata
  exact string_data_inj _ _ (List.append_cancel_left hdata)

/-- Witness for C6 at concrete inputs: same user, same timestamp, two
different 8-hex ids, identical original filename. -/
theorem C6_filename_generator_injective_witness :
    makeFilename "u" 1700000000 "abcdef01" "photo.jpg" ≠
      makeFilename "u" 1700000000 "deadbeef" "photo.jpg" ∧
    joinPath "data/images" (makeFilename "u" 1700000000 "abcdef01" "photo.jpg") ≠
      joinPath "data/images" (makeFilename "u" 1700000000 "deadbeef" "photo.jpg") :=
  C6_filename_generator_injective "u" "u" 1700000000 1700000000 "abcdef01" "deadbeef"
    "photo.jpg" "data/images" (by decide) (by decide) (by decide)

theorem extract_txt_eval (file : DocFileEnv) :
    extract_document_text ".txt" file =
      (if pyStrip file.txtContent = ""
        then ⟨false, "", 0, 0, some "No text could be extracted."⟩
        else ⟨true, pyStrip file.txtContent,
          (pySplitChars (pyStrip file.txtContent).data).length,
          (pyStrip file.txtContent).data.length, Option.none⟩) := by
  unfold extract_document_text
  rw [if_pos (by decide)]
  rw [if_neg (by decide), if_neg (by decide)]

theorem string_mk_ne_empty (l : List Char) (h : l ≠ []) : String.mk l ≠ "" := by
  intro he
  apply h
  have : ("" : String) = String.mk [] := rfl
  rw [this] at he
  injection he

/-- Claim C9 (amended): for every `.txt` file whose decoded UTF-8
content has at least one non-whitespace character,
`extract_document_text` returns success with `word_count` equal to the
whitespace-split token count of the content; for a whitespace-only
content the extraction fails instead ("No text could be extracted."),
which is what the counterexample below exhibits.  For every extension
outside .pdf/.docx/.txt the extraction fails with an error message
mentioning that extension. -/
theorem C9_txt_extraction_amended (file : DocFileEnv) (ext : String) :
    ((file.txtContent.data.any (fun c => !(isPySpace c))) = true →
      (extract_document_text ".txt" file).success = true ∧
      (extract_document_text ".txt" file).word_count =
        (pySplitChars file.txtContent.data).length) ∧
    (ext ∉ [".pdf", ".docx", ".txt"] →
      (extract_document_text ext file).success = false ∧
      ∃ pre post, (extract_document_text ext file).error = some (pre ++ ext ++ post)) := by
  constructor
  · intro hany
    obtain ⟨x, hx, hpx⟩ := List.any_eq_true.mp hany
    have hne : pyStripChars file.txtContent.data ≠ [] :=
      strip_ne_nil_of_nonspace _ x hx (by simpa using hpx)
    have hne' : pyStrip file.txtContent ≠ "" := string_mk_ne_empty _ hne
    rw [extract_txt_eval, if_neg hne']
    refine ⟨rfl, ?_⟩
    show (pySplitChars (pyStrip file.txtContent).data).length = _
    have hdata : (pyStrip file.txtContent).data = pyStripChars file.txtContent.data := rfl
    rw [hdata, pySplit_strip]
  · intro hnotin
    unfold extract_document_text
    rw [if_neg hnotin]
    exact ⟨rfl, "Unsupported file format: ", "", by simp⟩

/-- Witness for C9 at a concrete two-word `.txt` file and the `.rtf`
extension: success with word_count 2, and a failure message mentioning
".rtf". -/
theorem C9_txt_extraction_amended_witness :
    ((extract_document_text ".txt" docFileTwoWords).success = true ∧
      (extract_document_text ".txt" docFileTwoWords).word_count = 2) ∧
    ((extract_document_text ".rtf" docFileTwoWords).success = false ∧
      ∃ pre post,
        (extract_document_text ".rtf" docFileTwoWords).error = some (pre ++ ".rtf" ++ post)) := by
  have h := C9_txt_extraction_amended docFileTwoWords ".rtf"
  have h1 := h.1 (by decide)
  have h2 := h.2 (by decide)
  refine ⟨⟨h1.1, ?_⟩, h2⟩
  rw [h1.2]
  have hd : (docFileTwoWords.txtContent).data
      = ['h','e','l','l','o',' ','w','o','r','l','d'] := rfl
  rw [hd]
  simp [pySplitChars, isPySpace]

/-- Counterexample for C9 as stated: a `.txt` file whose content is the
single character " " is valid UTF-8 text, yet `extract_document_text`
returns success=false ("No text could be extracted.") instead of
success=true with word_count 0. -/
theorem C9_txt_extraction_counterexample :
    (extract_document_text ".txt" docFileBlank).success = false ∧
    (extract_document_text ".txt" docFileBlank).error =
      some "No text could be extracted." := by
  rw [extract_txt_eval, if_pos (by decide)]
  exact ⟨rfl, rfl⟩

theorem extractLoop_all_ok (ff fo : ℕ → Bool) (interval : ℚ) (hff : ∀ j, ff j = true) :
    ∀ (n i : ℕ),
      (extractLoop ff fo interval i n).1 = (List.range' i n).map (fun j : ℕ => interval * (j : ℚ)) ∧
      (extractLoop ff fo interval i n).2.2 = false := by
  intro n
  induction n with
  | zero => intro i; exact ⟨rfl, rfl⟩
  | succ n ih =>
    intro i
    unfold extractLoop
    rw [if_pos (hff i)]
    obtain ⟨h1, h2⟩ := ih (i + 1)
    constructor
    · show interval * i :: (extractLoop ff fo interval (i + 1) n).1 = _
      rw [h1, List.range'_succ]
      simp
    · show (if fo i then i :: (extractLoop ff fo interval (i + 1) n).2.1
          else (extractLoop ff fo interval (i + 1) n).2.1,
          (extractLoop ff fo interval (i + 1) n).2.2).2 = false
      exact h2

/-- Claim C4: for every video of positive duration and every requested
frame count N (with the external ffmpeg tool responding to every
request), the extraction stage requests exactly N frames at timestamps
`duration / (N + 1) * i` for `i = 1..N`; and whenever extraction yields
zero frames, the request is fatal for both `process_video` and
`quick_analyze` (the returned ProcessingResult has success=false). -/
theorem C4_frame_timestamps (env : VideoEnv) (numFrames : ℕ)
    (hdur : 0 < env.duration) (hff : ∀ j, env.ffmpegOk j = true) :
    ((VideoAgent.extract_frames env numFrames).requested =
        (List.range numFrames).map
          (fun k : ℕ => env.duration / ((numFrames : ℚ) + 1) * ((k : ℚ) + 1)) ∧
      (VideoAgent.extract_frames env numFrames).requested.length = numFrames) ∧
    (∀ env' : VideoEnv, (VideoAgent.extract_frames env' 6).frames = [] →
      (VideoAgent.process_video env').result.get "success" = some (.bool false)) ∧
    (∀ env' : VideoEnv, (VideoAgent.extract_frames env' 3).frames = [] →
      (VideoAgent.quick_analyze env').result.get "success" = some (.bool false)) := by
  refine ⟨?_, ?_, ?_⟩
  · have hreq : (VideoAgent.extract_frames env numFrames).requested =
        (extractLoop env.ffmpegOk env.frameOk (env.duration / ((numFrames : ℚ) + 1)) 1 numFrames).1 := by
      unfold VideoAgent.extract_frames
      rw [if_neg (by exact not_le.mpr hdur)]
    rw [hreq, (extractLoop_all_ok env.ffmpegOk env.frameOk _ hff numFrames 1).1]
    constructor
    · rw [List.range'_eq_map_range, List.map_map]
      apply List.map_congr_left
      intro a _
      show env.duration / ((numFrames : ℚ) + 1) * ((1 + a : ℕ) : ℚ) = _
      push_cast
      ring
    · simp
  · intro env' hemp
    simp only [VideoAgent.process_video]
    rw [hemp]
    rfl
  · intro env' hemp
    simp only [VideoAgent.quick_analyze]
    rw [hemp]
    rfl

/-- Witness for C4: a 60-second video with 3 requested frames yields
the timestamps [15, 30, 45], and an invocation whose extraction yields
no frames returns success=false. -/
theorem C4_frame_timestamps_witness :
    (VideoAgent.extract_frames vidEnvCrewFail 3).requested = [15, 30, 45] ∧
    (VideoAgent.process_video vidEnvNoFrames).result.get "success" = some (.bool false) := by
  have h := C4_frame_timestamps vidEnvCrewFail 3 (by decide) (fun j => rfl)
  constructor
  · rw [h.1.1]
    norm_num [vidEnvCrewFail, List.range_succ]
  · exact h.2.1 vidEnvNoFrames (by decide)

/-- Claim C7: each upload endpoint rejects a filename whose lowercased
suffix is outside its allow-list with a 400 client error, and the
response of the rejected branch is the same for every pipeline outcome
`r` (the pipeline is never consulted); a pipeline-level failure
(`success=false` with an error string) is instead answered with the 200
response model carrying `success=false` and that error string. -/
theorem C7_extension_allowlists (filename query : String) (r : PyVal) :
    (pyToLower (pySuffix filename) ∉ allowedImageExtensions →
      process_image_query filename query r =
        .clientError 400 ("Unsupported image file type: " ++ pyToLower (pySuffix filename))) ∧
    (pyToLower (pySuffix filename) ∉ allowedDocExtensions →
      process_document_query filename query r =
        .clientError 400 ("Unsupported document file type: " ++ pyToLower (pySuffix filename))) ∧
    (pyToLower (pySuffix filename) ∉ allowedAudioExtensions →
      process_audio_query filename query r =
        .clientError 400 ("Unsupported audio file type: " ++ pyToLower (pySuffix filename))) ∧
    (pyToLower (pySuffix filename) ∉ allowedVideoExtensions →
      process_video_query filename query r =
        .clientError 400 ("Unsupported video file type: " ++ pyToLower (pySuffix filename))) ∧
    (∀ e : String, r.get "success" = some (.bool false) → r.get "error" = some (.str e) →
      (pyToLower (pySuffix filename) ∈ allowedImageExtensions →
        ∃ resp, process_image_query filename query r = .ok resp ∧
          resp.success = false ∧ resp.error = some e) ∧
      (pyToLower (pySuffix filename) ∈ allowedDocExtensions →
        ∃ resp, process_document_query filename query r = .ok resp ∧
          resp.success = false ∧ resp.error = some e) ∧
      (pyToLower (pySuffix filename) ∈ allowedAudioExtensions →
        ∃ resp, process_audio_query filename query r = .ok resp ∧
          resp.success = false ∧ resp.error = some e) ∧
      (pyToLower (pySuffix filename) ∈ allowedVideoExtensions →
        ∃ resp, process_video_query filename query r = .ok resp ∧
          resp.success = false ∧ resp.error = some e)) := by
  have hreject : ∀ (allowed : List String) (modality : String),
      pyToLower (pySuffix filename) ∉ allowed →
      processUploadEndpoint allowed modality filename query r =
        .clientError 400 ("Unsupported " ++ modality ++ " file type: " ++ pyToLower (pySuffix filename)) := by
    intro allowed modality hnot
    unfold processUploadEndpoint
    rw [if_neg hnot]
  have hfail : ∀ (allowed : List String) (modality e : String),
      r.get "success" = some (.bool false) → r.get "error" = some (.str e) →
      pyToLower (pySuffix filename) ∈ allowed →
      ∃ resp, processUploadEndpoint allowed modality filename query r = .ok resp ∧
        resp.success = false ∧ resp.error = some e := by
    intro allowed modality e hs he hin
    unfold processUploadEndpoint
    rw [if_pos hin]
    refine ⟨_, rfl, ?_, ?_⟩
    · show r.getBoolD "success" false = false
      unfold PyVal.getBoolD
      rw [hs]
    · show r.getStrOpt "error" = some e
      unfold PyVal.getStrOpt
      rw [he]
  exact ⟨hreject _ "image", hreject _ "document", hreject _ "audio", hreject _ "video",
    fun e hs he => ⟨hfail _ "image" e hs he, hfail _ "document" e hs he,
      hfail _ "audio" e hs he, hfail _ "video" e hs he⟩⟩

/-- Witness for C7: a `.bmp` upload is rejected by the image endpoint
with a 400 for any pipeline outcome, and an audio pipeline failure on a
`.mp3` upload is answered 200 with success=false and the error. -/
theorem C7_extension_allowlists_witness :
    process_image_query "x.bmp" "" (.dict []) =
      .clientError 400 ("Unsupported image file type: " ++ pyToLower (pySuffix "x.bmp")) ∧
    ∃ resp, process_audio_query "a.mp3" ""
        (.dict [("success", .bool false), ("error", .str "down")]) = .ok resp ∧
      resp.success = false ∧ resp.error = some "down" := by
  constructor
  · exact (C7_extension_allowlists "x.bmp" "" (.dict [])).1 (by decide)
  · exact ((C7_extension_allowlists "a.mp3" ""
      (.dict [("success", .bool false), ("error", .str "down")])).2.2.2.2
        "down" rfl rfl).2.2.1 (by decide)

/-- Claim C8: for every accepted upload, the `result` field of the
response envelope is always a JSON object: the shared handler body of
the four endpoints passes a dict value through unchanged and wraps any
non-dict value (including the absent key, which reads as None) as
`{"analysis": str(value)}`; concretely, an audio pipeline failure, whose
ProcessingResult carries no `result` key, is answered with
`result = {"analysis": "None"}`. -/
theorem C8_result_always_object (allowed : List String) (modality filename query : String)
    (r : PyVal) (hin : pyToLower (pySuffix filename) ∈ allowed) :
    (∃ resp, processUploadEndpoint allowed modality filename query r = .ok resp ∧
      (∃ kvs, resp.result = .dict kvs) ∧
      (r.get "result" = Option.none → resp.result = .dict [("analysis", .str "None")]) ∧
      (∀ v, r.get "result" = some v → v.isDict = false →
        resp.result = .dict [("analysis", .str (pyStr v))]) ∧
      (∀ kvs, r.get "result" = some (.dict kvs) → resp.result = .dict kvs)) ∧
    (∀ ea : AudioEnv, ea.transcribe.success = false →
      ∃ resp, process_audio_query "a.mp3" query (AudioAgent.quick_analyze ea).result = .ok resp ∧
        resp.result = .dict [("analysis", .str "None")] ∧ resp.success = false) := by
  constructor
  · unfold processUploadEndpoint
    rw [if_pos hin]
    refine ⟨_, rfl, ?_, ?_, ?_, ?_⟩
    · show ∃ kvs, (match r.get "result" with
        | some v => if v.isDict then v else PyVal.dict [("analysis", .str (pyStr v))]
        | Option.none => PyVal.dict [("analysis", .str (pyStr .none))]) = PyVal.dict kvs
      rcases hr : r.get "result" with _ | v
      · exact ⟨_, rfl⟩
      · cases v <;> simp [PyVal.isDict, pyStr]
    · intro hr
      show (match r.get "result" with
        | some v => if v.isDict then v else PyVal.dict [("analysis", .str (pyStr v))]
        | Option.none => PyVal.dict [("analysis", .str (pyStr .none))]) = _
      rw [hr]
      rfl
    · intro v hr hnd
      show (match r.get "result" with
        | some v => if v.isDict then v else PyVal.dict [("analysis", .str (pyStr v))]
        | Option.none => PyVal.dict [("analysis", .str (pyStr .none))]) = _
      rw [hr]
      simp [hnd]
    · intro kvs hr
      show (match r.get "result" with
        | some v => if v.isDict then v else PyVal.dict [("analysis", .str (pyStr v))]
        | Option.none => PyVal.dict [("analysis", .str (pyStr .none))]) = _
      rw [hr]
      rfl
  · intro ea hT
    have hres : (AudioAgent.quick_analyze ea).result =
        avErrorResult ea.query ea.elapsed ea.transcribe.error := by
      unfold AudioAgent.quick_analyze
      rw [if_neg (by simp [hT])]
    unfold process_audio_query processUploadEndpoint
    rw [if_pos (by decide), hres]
    exact ⟨_, rfl, rfl, rfl⟩

/-- Witness for C8 at a concrete accepted upload and a concrete audio
failure environment. -/
theorem C8_result_always_object_witness :
    (∃ resp, processUploadEndpoint allowedAudioExtensions "audio" "a.mp3" "" (.dict []) = .ok resp ∧
      (∃ kvs, resp.result = .dict kvs) ∧
      ((PyVal.dict []).get "result" = Option.none →
        resp.result = .dict [("analysis", .str "None")]) ∧
      (∀ v, (PyVal.dict []).get "result" = some v → v.isDict = false →
        resp.result = .dict [("analysis", .str (pyStr v))]) ∧
      (∀ kvs, (PyVal.dict []).get "result" = some (.dict kvs) → resp.result = .dict kvs)) ∧
    (∃ resp, process_audio_query "a.mp3" ""
        (AudioAgent.quick_analyze audEnvTranscribeFail).result = .ok resp ∧
      resp.result = .dict [("analysis", .str "None")] ∧ resp.success = false) := by
  have h := C8_result_always_object allowedAudioExtensions "audio" "a.mp3" "" (.dict []) (by decide)
  exact ⟨h.1, h.2 audEnvTranscribeFail rfl⟩

/-- Claim C3: for every processing attempt by any of the four agents,
quick or full mode and success or failure alike (with the storage layer
available), exactly one TrackingRecord is written, and a MediaRecord is
written exactly when the attempt succeeded: failed attempts only insert
into the tracking table. -/
theorem C3_tracking_once_media_on_success
    (ei : ImageEnv) (ed : DocEnv) (ea : AudioEnv) (ev : VideoEnv)
    (hpi : ei.pxAvailable = true) (hpd : ed.pxAvailable = true)
    (hpa : ea.pxAvailable = true) (hpv : ev.pxAvailable = true) :
    tracksOnce (ImageAgent.quick_analyze ei) ∧ tracksOnce (ImageAgent.process_image ei) ∧
    tracksOnce (DocumentAgent.quick_analyze ed) ∧ tracksOnce (DocumentAgent.process_document ed) ∧
    tracksOnce (AudioAgent.quick_analyze ea) ∧ tracksOnce (AudioAgent.process_audio ea) ∧
    tracksOnce (VideoAgent.quick_analyze ev) ∧ tracksOnce (VideoAgent.process_video ev) := by
  obtain ⟨ifs0, idd, isp, iq, iu, its, iid, icp, ⟨ias, ian, iat, iae⟩, ⟨ics, ico, ict, ice⟩, iel, ipx⟩ := ei
  obtain ⟨dfs0, ddd, dsp, dq, du, dts, did, dcp, dfile, ⟨das, dan, dat, dae⟩, dck, dco, dce, dhu, dct, del, dpx⟩ := ed
  obtain ⟨afs0, add, asp, aq, au, ats, aid, acp, ⟨atrs, atrt, atre⟩, ⟨aas, aan, aat, aae⟩, ⟨acs, aco, act, ace⟩, ael, apx⟩ := ea
  obtain ⟨vfs0, vdd, vsp, vq, vu, vts, vid, vcp, vdur, vff, vfo, ⟨vas, van, vat, vae⟩, ⟨vcs, vco, vct, vce⟩, vel, vpx⟩ := ev
  simp only at hpi hpd hpa hpv
  subst hpi hpd hpa hpv
  refine ⟨?_, ?_, ?_, ?_, ?_, ?_, ?_, ?_⟩
  · unfold tracksOnce ImageAgent.quick_analyze ImageAgent.store
    dsimp only
    cases ias <;> exact ⟨rfl, rfl⟩
  · unfold tracksOnce ImageAgent.process_image ImageAgent.store
    dsimp only
    cases ias <;> cases ics <;> exact ⟨rfl, rfl⟩
  · unfold tracksOnce DocumentAgent.quick_analyze DocumentAgent.store
    dsimp only
    cases hex : (extract_document_text (pyToLower (pySuffix
        (savedPathOf ddd dsp du dts did dcp))) dfile).success <;>
      cases das <;> exact ⟨rfl, rfl⟩
  · unfold tracksOnce DocumentAgent.process_document DocumentAgent.store
    dsimp only
    cases hex : (extract_document_text (pyToLower (pySuffix
        (savedPathOf ddd dsp du dts did dcp))) dfile).success <;>
      cases dck <;> cases das <;> cases dhu <;> exact ⟨rfl, rfl⟩
  · unfold tracksOnce AudioAgent.quick_analyze AudioAgent.store analyze_audio
    dsimp only
    cases atrs
    · exact ⟨rfl, rfl⟩
    · by_cases htr : atrt = ""
      · subst htr
        exact ⟨rfl, rfl⟩
      · rw [if_neg htr]
        cases aas <;> exact ⟨rfl, rfl⟩
  · unfold tracksOnce AudioAgent.process_audio AudioAgent.store analyze_audio
    dsimp only
    cases atrs
    · exact ⟨rfl, rfl⟩
    · by_cases htr : atrt = ""
      · subst htr
        exact ⟨rfl, rfl⟩
      · rw [if_neg htr]
        cases aas <;> cases acs <;> exact ⟨rfl, rfl⟩
  · unfold tracksOnce VideoAgent.quick_analyze VideoAgent.store
    dsimp only
    cases hfr : (VideoAgent.extract_frames
        ⟨vfs0, vdd, vsp, vq, vu, vts, vid, vcp, vdur, vff, vfo, ⟨vas, van, vat, vae⟩,
          ⟨vcs, vco, vct, vce⟩, vel, true⟩ 3).frames.isEmpty <;>
      cases vas <;> exact ⟨rfl, rfl⟩
  · unfold tracksOnce VideoAgent.process_video VideoAgent.store
    dsimp only
    cases hfr : (VideoAgent.extract_frames
        ⟨vfs0, vdd, vsp, vq, vu, vts, vid, vcp, vdur, vff, vfo, ⟨vas, van, vat, vae⟩,
          ⟨vcs, vco, vct, vce⟩, vel, true⟩ 6).frames.isEmpty <;>
      cases vas <;> cases vcs <;> exact ⟨rfl, rfl⟩

/-- Witness for C3 at concrete invocations: an image success run, a
failed document run on an unsupported extension, a failed audio run,
and a video run with failed enhancement. -/
theorem C3_tracking_once_media_on_success_witness :
    tracksOnce (ImageAgent.quick_analyze imgEnvCrewFail) ∧
    tracksOnce (DocumentAgent.process_document docEnvRtf) ∧
    tracksOnce (AudioAgent.quick_analyze audEnvTranscribeFail) ∧
    tracksOnce (VideoAgent.process_video vidEnvCrewFail) := by
  have h := C3_tracking_once_media_on_success imgEnvCrewFail docEnvRtf audEnvTranscribeFail
    vidEnvCrewFail rfl rfl rfl rfl
  exact ⟨h.1, h.2.2.2.1, h.2.2.2.2.1, h.2.2.2.2.2.2.2⟩

/-- Claim C2 (amended): the image and document agents return a
ProcessingResult with a top-level integer `tokens` field on every path,
and on a fatal error it is 0 together with success=false; the audio and
video agents never emit a top-level `tokens` field at all (their token
counts only appear under `result.technical_details`), while fatal errors
still produce success=false — which the counterexample below exhibits
against the claim as stated. -/
theorem C2_tokens_field_amended (ei : ImageEnv) (ed : DocEnv) (ea : AudioEnv) (ev : VideoEnv) :
    ((∃ n, (ImageAgent.quick_analyze ei).result.get "tokens" = some (.int n)) ∧
     ((ImageAgent.quick_analyze ei).result.getBoolD "success" false = false →
       (ImageAgent.quick_analyze ei).result.get "tokens" = some (.int 0)) ∧
     (∃ n, (ImageAgent.process_image ei).result.get "tokens" = some (.int n)) ∧
     ((ImageAgent.process_image ei).result.getBoolD "success" false = false →
       (ImageAgent.process_image ei).result.get "tokens" = some (.int 0))) ∧
    ((∃ n, (DocumentAgent.quick_analyze ed).result.get "tokens" = some (.int n)) ∧
     ((DocumentAgent.quick_analyze ed).result.getBoolD "success" false = false →
       (DocumentAgent.quick_analyze ed).result.get "tokens" = some (.int 0)) ∧
     (∃ n, (DocumentAgent.process_document ed).result.get "tokens" = some (.int n)) ∧
     ((DocumentAgent.process_document ed).result.getBoolD "success" false = false →
       (DocumentAgent.process_document ed).result.get "tokens" = some (.int 0))) ∧
    ((AudioAgent.quick_analyze ea).result.get "tokens" = Option.none ∧
     (AudioAgent.process_audio ea).result.get "tokens" = Option.none ∧
     (VideoAgent.quick_analyze ev).result.get "tokens" = Option.none ∧
     (VideoAgent.process_video ev).result.get "tokens" = Option.none) := by
  obtain ⟨ifs0, idd, isp, iq, iu, its, iid, icp, ⟨ias, ian, iat, iae⟩, ⟨ics, ico, ict, ice⟩, iel, ipx⟩ := ei
  obtain ⟨dfs0, ddd, dsp, dq, du, dts, did, dcp, dfile, ⟨das, dan, dat, dae⟩, dck, dco, dce, dhu, dct, del, dpx⟩ := ed
  obtain ⟨afs0, add, asp, aq, au, ats, aid, acp, ⟨atrs, atrt, atre⟩, ⟨aas, aan, aat, aae⟩, ⟨acs, aco, act, ace⟩, ael, apx⟩ := ea
  obtain ⟨vfs0, vdd, vsp, vq, vu, vts, vid, vcp, vdur, vff, vfo, ⟨vas, van, vat, vae⟩, ⟨vcs, vco, vct, vce⟩, vel, vpx⟩ := ev
  refine ⟨?_, ?_, ?_⟩
  · unfold ImageAgent.quick_analyze ImageAgent.process_image
    dsimp only
    cases ias <;> cases ics <;>
      refine ⟨⟨_, rfl⟩, ?_, ⟨_, rfl⟩, ?_⟩ <;>
      first
        | exact fun _ => rfl
        | exact fun h => nomatch h
  · unfold DocumentAgent.quick_analyze DocumentAgent.process_document
    dsimp only
    cases hex : (extract_document_text (pyToLower (pySuffix
        (savedPathOf ddd dsp du dts did dcp))) dfile).success <;>
      cases das <;> cases dck <;> cases dhu <;>
      refine ⟨⟨_, rfl⟩, ?_, ⟨_, rfl⟩, ?_⟩ <;>
      first
        | exact fun _ => rfl
        | exact fun h => nomatch h
  · unfold AudioAgent.quick_analyze AudioAgent.process_audio
      VideoAgent.quick_analyze VideoAgent.process_video analyze_audio
    dsimp only
    constructor
    · cases atrs
      · exact rfl
      · by_cases htr : atrt = ""
        · subst htr; exact rfl
        · rw [if_neg htr]; cases aas <;> exact rfl
    constructor
    · cases atrs
      · exact rfl
      · by_cases htr : atrt = ""
        · subst htr; exact rfl
        · rw [if_neg htr]; cases aas <;> cases acs <;> exact rfl
    constructor
    · cases hfr : (VideoAgent.extract_frames
          ⟨vfs0, vdd, vsp, vq, vu, vts, vid, vcp, vdur, vff, vfo, ⟨vas, van, vat, vae⟩,
            ⟨vcs, vco, vct, vce⟩, vel, vpx⟩ 3).frames.isEmpty <;>
        cases vas <;> exact rfl
    · cases hfr : (VideoAgent.extract_frames
          ⟨vfs0, vdd, vsp, vq, vu, vts, vid, vcp, vdur, vff, vfo, ⟨vas, van, vat, vae⟩,
            ⟨vcs, vco, vct, vce⟩, vel, vpx⟩ 6).frames.isEmpty <;>
        cases vas <;> cases vcs <;> exact rfl

/-- Witness for C2 at concrete invocations: failed image and document
runs carry `tokens = 0` with success=false; audio and video results,
successful or failed, have no top-level `tokens` key. -/
theorem C2_tokens_field_amended_witness :
    (ImageAgent.quick_analyze imgEnvAnalyzeFail).result.get "tokens" = some (.int 0) ∧
    (DocumentAgent.process_document docEnvRtf).result.get "tokens" = some (.int 0) ∧
    (AudioAgent.quick_analyze audEnvTranscribeFail).result.get "tokens" = Option.none ∧
    (VideoAgent.process_video vidEnvCrewFail).result.get "tokens" = Option.none := by
  have h := C2_tokens_field_amended imgEnvAnalyzeFail docEnvRtf audEnvTranscribeFail vidEnvCrewFail
  exact ⟨h.1.2.1 (by decide), h.2.1.2.2.2 (by decide), h.2.2.1, h.2.2.2.2.2⟩

/-- Counterexample for C2 as stated: on a video invocation whose frame
extraction fails (a fatal error, success=false), the returned
ProcessingResult has no top-level `tokens` field at all, where the claim
requires an integer field with value 0. -/
theorem C2_tokens_field_counterexample :
    (VideoAgent.quick_analyze vidEnvNoFrames).result.get "tokens" = Option.none ∧
    (VideoAgent.quick_analyze vidEnvNoFrames).result.get "success" = some (.bool false) :=
  ⟨rfl, rfl⟩

theorem cleanup_generic (dataDir sourcePath userId : String) (ts : ℕ) (uid : String)
    (copyOk : Bool) (fs0 : List String)
    (hsw : pyStartswith sourcePath dataDir = false) (_hmem : sourcePath ∈ fs0) :
    (savedPathOf dataDir sourcePath userId ts uid copyOk ≠ sourcePath →
      sourcePath ∉ (if sourcePath ≠ savedPathOf dataDir sourcePath userId ts uid copyOk
        then cleanup_temp_file dataDir sourcePath
          (fsAfterSave dataDir sourcePath userId ts uid copyOk fs0)
        else fsAfterSave dataDir sourcePath userId ts uid copyOk fs0)) ∧
    (pyStartswith (savedPathOf dataDir sourcePath userId ts uid copyOk) dataDir = true →
      savedPathOf dataDir sourcePath userId ts uid copyOk ∈
        (if sourcePath ≠ savedPathOf dataDir sourcePath userId ts uid copyOk
          then cleanup_temp_file dataDir sourcePath
            (fsAfterSave dataDir sourcePath userId ts uid copyOk fs0)
          else fsAfterSave dataDir sourcePath userId ts uid copyOk fs0)) := by
  cases copyOk
  · have hsp : savedPathOf dataDir sourcePath userId ts uid false = sourcePath := rfl
    rw [hsp]
    constructor
    · intro hne
      exact absurd rfl hne
    · intro hsw2
      rw [hsw] at hsw2
      exact nomatch hsw2
  · have hsp : savedPathOf dataDir sourcePath userId ts uid true
        = joinPath dataDir (makeFilename userId ts uid (pyBasename sourcePath)) := rfl
    have hfs : fsAfterSave dataDir sourcePath userId ts uid true fs0
        = joinPath dataDir (makeFilename userId ts uid (pyBasename sourcePath)) :: fs0 := rfl
    have hjoin := pyStartswith_joinPath dataDir (makeFilename userId ts uid (pyBasename sourcePath))
    have hne : sourcePath ≠ joinPath dataDir (makeFilename userId ts uid (pyBasename sourcePath)) := by
      intro he
      rw [he, hjoin] at hsw
      exact nomatch hsw
    rw [hsp, hfs, if_pos hne]
    unfold cleanup_temp_file
    rw [hsw]
    have hred : (if false = true then
        joinPath dataDir (makeFilename userId ts uid (pyBasename sourcePath)) :: fs0
      else fsRemove sourcePath
        (joinPath dataDir (makeFilename userId ts uid (pyBasename sourcePath)) :: fs0))
      = fsRemove sourcePath
        (joinPath dataDir (makeFilename userId ts uid (pyBasename sourcePath)) :: fs0) := rfl
    rw [hred]
    constructor
    · intro _
      unfold fsRemove
      intro hmem2
      have := (List.mem_filter.mp hmem2).2
      simp at this
    · intro _
      unfold fsRemove
      apply List.mem_filter.mpr
      refine ⟨by simp, ?_⟩
      simp only [decide_eq_true_eq]
      exact fun he => hne he.symm

/-- Claim C5 (amended): for every pipeline invocation of any of the
four agents on an original input that exists and does not itself lie
inside the data directory of the agent, if the durable copy path
differs from the original then the original no longer exists after the
call, and a durable copy inside the data directory still exists; for an
original already inside the data directory the cleanup step refuses the
deletion, which the counterexample below exhibits against the claim as
stated. -/
theorem C5_cleanup_amended (ei : ImageEnv) (ed : DocEnv) (ea : AudioEnv) (ev : VideoEnv)
    (hi : pyStartswith ei.sourcePath ei.dataDir = false) (hmi : ei.sourcePath ∈ ei.fs0)
    (hd : pyStartswith ed.sourcePath ed.dataDir = false) (hmd : ed.sourcePath ∈ ed.fs0)
    (ha : pyStartswith ea.sourcePath ea.dataDir = false) (hma : ea.sourcePath ∈ ea.fs0)
    (hv : pyStartswith ev.sourcePath ev.dataDir = false) (hmv : ev.sourcePath ∈ ev.fs0) :
    cleanupOk ei.sourcePath ei.dataDir (ImageAgent.quick_analyze ei) ∧
    cleanupOk ei.sourcePath ei.dataDir (ImageAgent.process_image ei) ∧
    cleanupOk ed.sourcePath ed.dataDir (DocumentAgent.quick_analyze ed) ∧
    cleanupOk ed.sourcePath ed.dataDir (DocumentAgent.process_document ed) ∧
    cleanupOk ea.sourcePath ea.dataDir (AudioAgent.quick_analyze ea) ∧
    cleanupOk ea.sourcePath ea.dataDir (AudioAgent.process_audio ea) ∧
    cleanupOk ev.sourcePath ev.dataDir (VideoAgent.quick_analyze ev) ∧
    cleanupOk ev.sourcePath ev.dataDir (VideoAgent.process_video ev) := by
  have gi := cleanup_generic ei.dataDir ei.sourcePath ei.userId ei.ts ei.uid ei.copyOk ei.fs0 hi hmi
  have gd := cleanup_generic ed.dataDir ed.sourcePath ed.userId ed.ts ed.uid ed.copyOk ed.fs0 hd hmd
  have ga := cleanup_generic ea.dataDir ea.sourcePath ea.userId ea.ts ea.uid ea.copyOk ea.fs0 ha hma
  have gv := cleanup_generic ev.dataDir ev.sourcePath ev.userId ev.ts ev.uid ev.copyOk ev.fs0 hv hmv
  exact ⟨⟨gi.1, gi.2⟩, ⟨gi.1, gi.2⟩, ⟨gd.1, gd.2⟩, ⟨gd.1, gd.2⟩,
    ⟨ga.1, ga.2⟩, ⟨ga.1, ga.2⟩, ⟨gv.1, gv.2⟩, ⟨gv.1, gv.2⟩⟩

/-- Witness for C5 at a concrete video invocation from a temp-file
original path. -/
theorem C5_cleanup_amended_witness :
    cleanupOk vidEnvCrewFail.sourcePath vidEnvCrewFail.dataDir
      (VideoAgent.process_video vidEnvCrewFail) := by
  have h := C5_cleanup_amended imgEnvCrewFail docEnvOk audEnvCrewFail vidEnvCrewFail
    (by decide) (by decide) (by decide) (by decide)
    (by decide) (by decide) (by decide) (by decide)
  exact h.2.2.2.2.2.2.2

/-- Counterexample for C5 as stated: a video invocation whose original
input already lies inside the data folder of the agent produces a
durable copy path that differs from the original, yet the original
still exists after the call (`cleanup_temp_file` refuses to delete
paths under the data folder). -/
theorem C5_cleanup_counterexample :
    (VideoAgent.quick_analyze vidEnvInsideDataDir).savedPath ≠ "data/videos/orig.mp4" ∧
    "data/videos/orig.mp4" ∈ (VideoAgent.quick_analyze vidEnvInsideDataDir).fs := by
  constructor
  · decide
  · decide

/-- Claim C1 (amended): for the image, audio and video agents, a
failure of the CrewAI enhancement stage after a successful hosted-model
analysis is non-fatal: the full-processing operation still returns
success=true, `enhanced_response` is the empty string, the base
analysis is kept, the token total counts only the base analysis, the
persistence stage still writes the media record and a success tracking
record, and the cleanup step runs exactly as on a successful
enhancement.  For the document agent, `process_document` invokes
`crew.kickoff()` directly in the main try-block, so an enhancement
failure is fatal: the result has success=false and tokens=0 and no
media record is written — the counterexample below exhibits this
against the claim as stated. -/
theorem C1_enhancement_failure_amended (ei : ImageEnv) (ea : AudioEnv) (ev : VideoEnv) (ed : DocEnv) :
    (ei.analyze.success = true → ei.crew.success = false →
      (ImageAgent.process_image ei).result.get "success" = some (.bool true) ∧
      ((ImageAgent.process_image ei).result.getDictD "result").get "enhanced_response" =
        some (.str "") ∧
      ((ImageAgent.process_image ei).result.getDictD "result").get "primary_analysis" =
        some (.str ei.analyze.analysis) ∧
      (ImageAgent.process_image ei).result.get "tokens" = some (.int ei.analyze.tokens) ∧
      (ei.pxAvailable = true →
        (ImageAgent.process_image ei).writes.countP DBWrite.isMedia = 1 ∧
        (ImageAgent.process_image ei).writes.countP DBWrite.isSuccessTracking = 1) ∧
      (∀ c' : CrewResult,
        (ImageAgent.process_image ei).fs = (ImageAgent.process_image { ei with crew := c' }).fs)) ∧
    (ea.transcribe.success = true →
      (analyze_audio ea.transcribe.transcript ea.openai).success = true →
      ea.crew.success = false →
      (AudioAgent.process_audio ea).result.get "success" = some (.bool true) ∧
      ((AudioAgent.process_audio ea).result.getDictD "result").get "enhanced_response" =
        some (.str "") ∧
      ((AudioAgent.process_audio ea).result.getDictD "result").get "primary_analysis" =
        some (.str (analyze_audio ea.transcribe.transcript ea.openai).analysis) ∧
      (((AudioAgent.process_audio ea).result.getDictD "result").getDictD
          "technical_details").get "tokens_used" =
        some (.int (analyze_audio ea.transcribe.transcript ea.openai).tokens) ∧
      (ea.pxAvailable = true →
        (AudioAgent.process_audio ea).writes.countP DBWrite.isMedia = 1 ∧
        (AudioAgent.process_audio ea).writes.countP DBWrite.isSuccessTracking = 1) ∧
      (∀ c' : CrewResult,
        (AudioAgent.process_audio ea).fs = (AudioAgent.process_audio { ea with crew := c' }).fs)) ∧
    ((VideoAgent.extract_frames ev 6).frames.isEmpty = false →
      ev.analyze.success = true → ev.crew.success = false →
      (VideoAgent.process_video ev).result.get "success" = some (.bool true) ∧
      ((VideoAgent.process_video ev).result.getDictD "result").get "enhanced_response" =
        some (.str "") ∧
      ((VideoAgent.process_video ev).result.getDictD "result").get "primary_analysis" =
        some (.str ev.analyze.analysis) ∧
      (((VideoAgent.process_video ev).result.getDictD "result").getDictD
          "technical_details").get "tokens_used" = some (.int ev.analyze.tokens) ∧
      (ev.pxAvailable = true →
        (VideoAgent.process_video ev).writes.countP DBWrite.isMedia = 1 ∧
        (VideoAgent.process_video ev).writes.countP DBWrite.isSuccessTracking = 1) ∧
      (∀ c' : CrewResult,
        (VideoAgent.process_video ev).fs = (VideoAgent.process_video { ev with crew := c' }).fs)) ∧
    (ed.crewOk = false →
      (DocumentAgent.process_document ed).result.get "success" = some (.bool false) ∧
      (DocumentAgent.process_document ed).result.get "tokens" = some (.int 0) ∧
      (ed.pxAvailable = true →
        (DocumentAgent.process_document ed).writes.countP DBWrite.isMedia = 0 ∧
        (DocumentAgent.process_document ed).writes.countP DBWrite.isTracking = 1)) := by
  obtain ⟨ifs0, idd, isp, iq, iu, its, iid, icp, ⟨ias, ian, iat, iae⟩, ⟨ics, ico, ict, ice⟩, iel, ipx⟩ := ei
  obtain ⟨afs0, add, asp, aq, au, ats, aid, acp, ⟨atrs, atrt, atre⟩, ⟨aas, aan, aat, aae⟩, ⟨acs, aco, act, ace⟩, ael, apx⟩ := ea
  obtain ⟨vfs0, vdd, vsp, vq, vu, vts, vid, vcp, vdur, vff, vfo, ⟨vas, van, vat, vae⟩, ⟨vcs, vco, vct, vce⟩, vel, vpx⟩ := ev
  obtain ⟨dfs0, ddd, dsp, dq, du, dts, did, dcp, dfile, ⟨das, dan, dat, dae⟩, dck, dco, dce, dhu, dct, del, dpx⟩ := ed
  refine ⟨?_, ?_, ?_, ?_⟩
  · intro h1 h2
    simp only at h1 h2
    subst h1 h2
    refine ⟨rfl, rfl, rfl, ?_, fun hp => ?_, fun c' => rfl⟩
    · show some (PyVal.int (iat + 0)) = some (PyVal.int iat)
      rw [Int.add_zero]
    · simp only at hp
      subst hp
      exact ⟨rfl, rfl⟩
  · intro h1 h2 h3
    simp only at h1 h3
    subst h1 h3
    unfold analyze_audio at h2
    by_cases htr : atrt = ""
    · rw [if_pos htr] at h2
      exact nomatch h2
    · rw [if_neg htr] at h2
      simp only at h2
      subst h2
      unfold AudioAgent.process_audio analyze_audio
      dsimp only
      rw [if_neg htr]
      refine ⟨rfl, rfl, rfl, ?_, fun hp => ?_, fun c' => ?_⟩
      · show some (PyVal.int (aat + 0)) = some (PyVal.int aat)
        rw [Int.add_zero]
      · simp only at hp
        subst hp
        exact ⟨rfl, rfl⟩
      · rfl
  · intro h1 h2 h3
    simp only at h2 h3
    subst h2 h3
    unfold VideoAgent.process_video
    dsimp only
    rw [h1]
    refine ⟨rfl, rfl, rfl, ?_, fun hp => ?_, fun c' => ?_⟩
    · show some (PyVal.int (vat + 0)) = some (PyVal.int vat)
      rw [Int.add_zero]
    · simp only at hp
      subst hp
      exact ⟨rfl, rfl⟩
    · rfl
  · intro h1
    simp only at h1
    subst h1
    unfold DocumentAgent.process_document
    dsimp only
    cases hex : (extract_document_text (pyToLower (pySuffix
        (savedPathOf ddd dsp du dts did dcp))) dfile).success <;>
      refine ⟨rfl, rfl, fun hp => ?_⟩ <;> simp only at hp <;> subst hp <;> exact ⟨rfl, rfl⟩

/-- Witness for C1 at concrete invocations: for image, audio and video
the enhancement failure leaves success=true with an empty
enhanced_response; for the document agent the same situation yields
success=false. -/
theorem C1_enhancement_failure_amended_witness :
    (ImageAgent.process_image imgEnvCrewFail).result.get "success" = some (.bool true) ∧
    ((ImageAgent.process_image imgEnvCrewFail).result.getDictD "result").get "enhanced_response" =
      some (.str "") ∧
    ((AudioAgent.process_audio audEnvCrewFail).result.getDictD "result").get "enhanced_response" =
      some (.str "") ∧
    (VideoAgent.process_video vidEnvCrewFail).result.get "success" = some (.bool true) ∧
    (DocumentAgent.process_document docEnvCrewFail).result.get "success" = some (.bool false) := by
  have h := C1_enhancement_failure_amended imgEnvCrewFail audEnvCrewFail vidEnvCrewFail docEnvCrewFail
  have h1 := h.1 rfl rfl
  have h2 := h.2.1 rfl rfl rfl
  have h3 := h.2.2.1 (by decide) rfl rfl
  have h4 := h.2.2.2 rfl
  exact ⟨h1.1, h1.2.1, h2.2.1, h3.1, h4.1⟩

/-- Counterexample for C1 as stated: in the document agent, a CrewAI
failure after a successful analysis is fatal — the returned
ProcessingResult has success=false with the crew error text, and no
media record is written. -/
theorem C1_enhancement_failure_counterexample :
    (DocumentAgent.process_document docEnvCrewFail).result.get "success" = some (.bool false) ∧
    (DocumentAgent.process_document docEnvCrewFail).result.get "error" =
      some (.str "crew blew up") ∧
    (DocumentAgent.process_document docEnvCrewFail).writes.countP DBWrite.isMedia = 0 :=
  ⟨rfl, rfl, rfl⟩
